import Mathlib

/-!
Verification of the TagadaPay example applications' payment-orchestration
logic against their natural-language specification.

The development shallowly embeds the TypeScript sources:

* `src/unnamed/part_008` (`paymentBackend.ts`): the backend API functions
  `createPaymentInstrument`, `persistThreedsSession`, `processPayment` and
  `pollPaymentStatus`, modelled in namespace `Backend`.  Network effects are
  made explicit: every function returns the list of `Effect`s it performs
  (HTTP requests, fixed-interval waits, state updates) together with its
  result, and the responses of the external API are supplied by an
  environment argument.
* `src/core-js-tokenization/src/hooks/usePaymentFlow.ts`: the client-side
  orchestration hook, modelled in namespace `PaymentFlow` as state-passing
  functions over `HookState`.
* `src/unnamed/part_005` (the basic tokenization demo `App.tsx`) and
  `src/core-js-tokenization/src/App.tsx`: the 3DS retry actions, in
  namespaces `AppP5` and `AppCoreJs`.
* `src/unnamed/part_006` (`localStorage.ts`): the history utilities, in
  namespace `HistoryStore`, as pure list transformations.
* `src/apple-google-tokenization/src/components/GooglePayExpressCheckout.tsx`:
  the mock shipping/tax service, in namespace `MockShipping`, with money
  amounts as exact rationals.
* the TagadaToken base64/JSON envelope, in namespace `TokenCodec`; the
  encoding side lives in `CardForm.tsx`/the vendor SDK, which is not among
  the sources, and is therefore modelled from the spec.

JavaScript `async`/`await` sequencing is single-threaded, so each async
function is embedded as a pure function from its environment (the outcomes
of the external calls it awaits) to a trace of actions plus a result;
thrown errors become `Except.error` carrying the error message.
-/

/-! ## Data model shared by the examples

These mirror the TypeScript interfaces `Payment`, `PaymentInstrument`,
`Customer`, `ThreedsSessionResult` of `usePaymentFlow.ts` / `part_005`.
Fields of TS type `number` that hold money amounts are embedded as `Int`
(the demos use integer cents), timestamps and identifiers as `String`.
-/

/-- The `requireAction` field of a payment: `'none' | 'redirect' | 'threeds_auth'`. -/
inductive RequireAction where
  | none
  | redirect
  | threeds_auth
deriving DecidableEq, Repr

/-- The `requireActionData.type` field: `'threeds_auth' | 'redirect'`. -/
inductive ActionDataType where
  | threeds_auth
  | redirect
deriving DecidableEq, Repr

/-- The `requireActionData.metadata.threedsSession` object. -/
structure ThreedsSessionInfo where
  externalSessionId : String
  acsChallengeUrl : String
  acsTransID : String
  messageVersion : String
deriving DecidableEq, Repr

/-- The optional `requireActionData.metadata` object. -/
structure ActionMetadata where
  threedsSession : Option ThreedsSessionInfo
deriving DecidableEq, Repr

/-- The optional `requireActionData` object of a payment. -/
structure RequireActionData where
  type : ActionDataType
  processed : Bool
  metadata : Option ActionMetadata
deriving DecidableEq, Repr

/-- The optional `error` detail of a payment (`usePaymentFlow.ts`). -/
structure PaymentError where
  code : Option String
  message : Option String
  processorCode : Option String
  processorMessage : Option String
deriving DecidableEq, Repr

/-- A payment object as returned by the API (`Payment` in `usePaymentFlow.ts`). -/
structure Payment where
  id : String
  amount : Int
  currency : String
  status : String
  subStatus : String
  requireAction : RequireAction
  requireActionData : Option RequireActionData
  createdAt : String
  error : Option PaymentError
deriving DecidableEq, Repr

/-- A `\x7b payment: ... \x7d` response envelope (`PaymentResult` in `part_005`). -/
structure PaymentResponse where
  payment : Payment
deriving DecidableEq, Repr

/-- Card summary inside a payment instrument. -/
structure CardSummary where
  last4 : String
  brand : String
  expYear : Int
  expMonth : Int
deriving DecidableEq, Repr

/-- A stored payment instrument (`PaymentInstrument` in `usePaymentFlow.ts`). -/
structure PaymentInstrument where
  id : String
  type : String
  customerId : String
  accountId : String
  isActive : Bool
  isDefault : Bool
  tokenizer : String
  createdAt : String
  card : CardSummary
deriving DecidableEq, Repr

/-- A customer record. -/
structure Customer where
  id : String
  email : String
  firstName : Option String
  lastName : Option String
  createdAt : String
deriving DecidableEq, Repr

/-- Result of the create-payment-instrument endpoint. -/
structure PaymentInstrumentResult where
  paymentInstrument : PaymentInstrument
  customer : Customer
deriving DecidableEq, Repr

/-- A persisted 3DS session (`ThreedsSessionResult` in `part_005`). -/
structure ThreedsSessionResult where
  id : String
  externalSessionId : String
  provider : String
  status : String
  paymentInstrumentId : String
  createdAt : String
deriving DecidableEq, Repr

/-- The `threeDsStatus` UI state of the orchestration. -/
inductive ThreeDsStatus where
  | idle
  | required
  | in_progress
  | completed
  | failed
deriving DecidableEq, Repr

/-- An observable side effect performed by the embedded code: an HTTP
request (method, url, authorization header), a `setTimeout` wait, a React
state update, or a vendor-SDK call. -/
inductive Effect where
  | request (method : String) (url : String) (authHeader : String)
  | wait (ms : Nat)
  | setLoading (b : Bool)
  | setError (e : Option String)
  | setStatus (s : ThreeDsStatus)
  | sdkCreateSession (paymentInstrumentId : String)
  | sdkStartChallenge (sessionId acsChallengeUrl acsTransactionId threeDSVersion : String)
  | setLastChallengeData (d : Option PaymentResponse)
  | setPaymentResult (r : Option PaymentResponse)
  | setThreedsSessionResult (r : Option ThreedsSessionResult)
deriving DecidableEq, Repr

/-- Count of HTTP requests in a trace. -/
def countRequests : List Effect → Nat
  | [] => 0
  | Effect.request _ _ _ :: rest => countRequests rest + 1
  | _ :: rest => countRequests rest

namespace Backend

/-! ## `paymentBackend.ts` (`src/unnamed/part_008`)

The backend functions.  The HTTP layer is abstracted by environments: a
`PollResponse` describes what one GET of the poll loop comes back with, an
`HttpOutcome` describes the response of one of the POST endpoints.
-/

/-- Outcome of one GET in the polling loop: a non-ok HTTP response, a body
from which no `payment.status` can be read (`!payment || !payment.status`),
or a payment object.  The `data.payment || data` unwrapping of the source
is absorbed into the environment: either way the loop proceeds with a
payment object. -/
inductive PollResponse where
  | notOk
  | invalidPayment
  | payment (p : Payment)
deriving DecidableEq, Repr

/-- Terminal-status check of the poll loop:
`status === 'succeeded' || status === 'failed' || status === 'declined'`. -/
def isTerminalStatus (s : String) : Bool :=
  s == "succeeded" || s == "failed" || s == "declined"

/-- The `for (let i = 0; i < maxAttempts; i++)` loop of `pollPaymentStatus`,
with `i` the current index and the second argument the remaining number of
attempts.  Each iteration performs the GET; a terminal status returns, a
non-terminal one waits 1500 ms and continues; loop exhaustion throws
`Payment verification timeout`. -/
def pollFrom (env : Nat → PollResponse) (apiBaseUrl paymentId apiToken : String) :
    Nat → Nat → List Effect × Except String PaymentResponse
  | _, 0 => ([], Except.error "Payment verification timeout")
  | i, remaining + 1 =>
    let act := Effect.request "GET" (apiBaseUrl ++ "/api/public/v1/payments/" ++ paymentId)
      ("Bearer " ++ apiToken)
    match env i with
    | PollResponse.notOk => ([act], Except.error "Failed to fetch payment status")
    | PollResponse.invalidPayment => ([act], Except.error "Invalid payment response")
    | PollResponse.payment p =>
      if isTerminalStatus p.status then
        ([act], Except.ok { payment := p })
      else
        let rest := pollFrom env apiBaseUrl paymentId apiToken (i + 1) remaining
        (act :: Effect.wait 1500 :: rest.1, rest.2)

/-- The backend `pollPaymentStatus(paymentId, apiToken, apiBaseUrl, maxAttempts)`;
the source defaults `maxAttempts` to 20 and `apiBaseUrl` to
`https://app.tagadapay.com`. -/
def pollPaymentStatus (env : Nat → PollResponse) (paymentId apiToken apiBaseUrl : String)
    (maxAttempts : Nat) : List Effect × Except String PaymentResponse :=
  pollFrom env apiBaseUrl paymentId apiToken 0 maxAttempts

/-- The URL polled for a payment. -/
def pollUrl (apiBaseUrl paymentId : String) : String :=
  apiBaseUrl ++ "/api/public/v1/payments/" ++ paymentId

/-- Exact trace left by a poll that exhausts all its attempts: each GET is
followed by one 1500 ms wait. -/
def timeoutTrace (url auth : String) : Nat → List Effect
  | 0 => []
  | n + 1 => Effect.request "GET" url auth :: Effect.wait 1500 :: timeoutTrace url auth n

theorem countRequests_pollFrom_le (env : Nat → PollResponse)
    (apiBaseUrl paymentId apiToken : String) :
    ∀ n i, countRequests (pollFrom env apiBaseUrl paymentId apiToken i n).1 ≤ n := by
  intro n
  induction n with
  | zero => intro i; simp [pollFrom, countRequests]
  | succ m ih =>
    intro i
    simp only [pollFrom]
    cases env i with
    | notOk => simp [countRequests]
    | invalidPayment => simp [countRequests]
    | payment p =>
      by_cases h : isTerminalStatus p.status
      · simp [h, countRequests]
      · simp only [h, if_false, Bool.false_eq_true, countRequests]
        exact Nat.succ_le_succ (ih (i + 1))

theorem mem_pollFrom (env : Nat → PollResponse) (apiBaseUrl paymentId apiToken : String) :
    ∀ n i a, a ∈ (pollFrom env apiBaseUrl paymentId apiToken i n).1 →
      a = Effect.request "GET" (pollUrl apiBaseUrl paymentId) ("Bearer " ++ apiToken) ∨
        a = Effect.wait 1500 := by
  intro n
  induction n with
  | zero => intro i a ha; simp [pollFrom] at ha
  | succ m ih =>
    intro i a ha
    cases henv : env i with
    | notOk => simp [pollFrom, henv] at ha; left; simp [ha, pollUrl]
    | invalidPayment => simp [pollFrom, henv] at ha; left; simp [ha, pollUrl]
    | payment p =>
      by_cases h : isTerminalStatus p.status
      · simp [pollFrom, henv, h] at ha; left; simp [ha, pollUrl]
      · simp only [pollFrom, henv, h, if_false, Bool.false_eq_true, List.mem_cons] at ha
        rcases ha with h1 | h1 | h1
        · left; simp [h1, pollUrl]
        · right; exact h1
        · exact ih (i + 1) a h1

theorem pollFrom_all_nonterminal (env : Nat → PollResponse)
    (apiBaseUrl paymentId apiToken : String) :
    ∀ n i, (∀ j, j < n → ∃ p, env (i + j) = PollResponse.payment p ∧
        isTerminalStatus p.status = false) →
      pollFrom env apiBaseUrl paymentId apiToken i n =
        (timeoutTrace (pollUrl apiBaseUrl paymentId) ("Bearer " ++ apiToken) n,
         Except.error "Payment verification timeout") := by
  intro n
  induction n with
  | zero => intro i _; simp [pollFrom, timeoutTrace]
  | succ m ih =>
    intro i h
    obtain ⟨p, hp, hterm⟩ := h 0 (Nat.succ_pos m)
    simp only [Nat.add_zero] at hp
    have hrest : ∀ j, j < m → ∃ q, env (i + 1 + j) = PollResponse.payment q ∧
        isTerminalStatus q.status = false := by
      intro j hj
      have := h (j + 1) (Nat.succ_lt_succ hj)
      simpa [Nat.add_assoc, Nat.add_comm 1 j] using this
    simp only [pollFrom, hp, hterm, if_false, Bool.false_eq_true, timeoutTrace, ih (i + 1) hrest,
      pollUrl]

/-! ### The POST endpoints

`createPaymentInstrument`, `persistThreedsSession` and `processPayment`
all follow the same shape: one `fetch` with a JSON body and a bearer
Authorization header; a non-ok response raises
`new Error(errorData.error || fallback)` where `errorData` is the parsed
error body (`\x7b error: 'Unknown error' \x7d` when the body is not JSON),
and an ok response is returned parsed.
-/

/-- A non-ok HTTP response: status, status text, and the `error` field of
the parsed JSON body — `Option.none` when the body has no such field (a
body that fails to parse surfaces as `some "Unknown error"` through the
`.catch` of the source). -/
structure HttpFailure where
  status : Nat
  statusText : String
  errorField : Option String
deriving DecidableEq, Repr

/-- Outcome of one POST request: ok with parsed body, or an HTTP failure. -/
inductive HttpOutcome (α : Type) where
  | ok (value : α)
  | httpError (f : HttpFailure)
deriving DecidableEq, Repr

/-- JavaScript `a || b` on the optional string `a`: an absent or empty
(falsy) `error` field selects the fallback. -/
def jsOrString (v : Option String) (fallback : String) : String :=
  match v with
  | some s => if s = "" then fallback else s
  | Option.none => fallback

/-- The error message thrown for a non-ok response, given the fallback
template of the particular endpoint. -/
def failureMessage (f : HttpFailure) (fallback : String) : String :=
  jsOrString f.errorField fallback

/-- Customer data sent when creating a payment instrument. -/
structure CustomerData where
  email : String
  firstName : String
  lastName : String
deriving DecidableEq, Repr

/-- Parameters of `createPaymentInstrument` (`CreatePaymentInstrumentParams`). -/
structure CreatePaymentInstrumentParams where
  tagadaToken : String
  storeId : String
  customerData : CustomerData
deriving DecidableEq, Repr

/-- Parameters of `persistThreedsSession` (`PersistThreedsSessionParams`);
the opaque `sessionData` record is not modelled, no claim depends on it. -/
structure PersistThreedsSessionParams where
  provider : String
  storeId : String
  paymentInstrumentId : String
deriving DecidableEq, Repr

/-- Parameters of `processPayment` (`ProcessPaymentParams`). -/
structure ProcessPaymentParams where
  amount : Int
  currency : String
  storeId : String
  paymentInstrumentId : String
  threedsSessionId : Option String
deriving DecidableEq, Repr

/-- Backend `createPaymentInstrument(params, apiToken, apiBaseUrl)`: one POST
to `/api/public/v1/payment-instruments/create-from-token` with bearer auth;
a non-ok response throws
`errorData.error || 'Failed to create payment instrument: ' + statusText`. -/
def createPaymentInstrument (env : HttpOutcome PaymentInstrumentResult)
    (_params : CreatePaymentInstrumentParams) (apiToken apiBaseUrl : String) :
    List Effect × Except String PaymentInstrumentResult :=
  let act := Effect.request "POST"
    (apiBaseUrl ++ "/api/public/v1/payment-instruments/create-from-token")
    ("Bearer " ++ apiToken)
  match env with
  | HttpOutcome.ok v => ([act], Except.ok v)
  | HttpOutcome.httpError f =>
    ([act], Except.error (failureMessage f ("Failed to create payment instrument: " ++ f.statusText)))

/-- Backend `persistThreedsSession(params, apiToken, apiBaseUrl)`: one POST to
`/api/public/v1/threeds/create-session` with bearer auth; a non-ok response
throws `errorData.error || 'Failed to persist session: ' + statusText`. -/
def persistThreedsSession (env : HttpOutcome ThreedsSessionResult)
    (_params : PersistThreedsSessionParams) (apiToken apiBaseUrl : String) :
    List Effect × Except String ThreedsSessionResult :=
  let act := Effect.request "POST"
    (apiBaseUrl ++ "/api/public/v1/threeds/create-session")
    ("Bearer " ++ apiToken)
  match env with
  | HttpOutcome.ok v => ([act], Except.ok v)
  | HttpOutcome.httpError f =>
    ([act], Except.error (failureMessage f ("Failed to persist session: " ++ f.statusText)))

/-- Backend `processPayment(params, apiToken, apiBaseUrl)`: one POST to
`/api/public/v1/payments/process` with bearer auth; a non-ok response throws
`errorData.error || 'Failed to process payment: ' + statusText`. -/
def processPayment (env : HttpOutcome PaymentResponse)
    (_params : ProcessPaymentParams) (apiToken apiBaseUrl : String) :
    List Effect × Except String PaymentResponse :=
  let act := Effect.request "POST"
    (apiBaseUrl ++ "/api/public/v1/payments/process")
    ("Bearer " ++ apiToken)
  match env with
  | HttpOutcome.ok v => ([act], Except.ok v)
  | HttpOutcome.httpError f =>
    ([act], Except.error (failureMessage f ("Failed to process payment: " ++ f.statusText)))

theorem isTerminalStatus_of_ne_pending (s : String)
    (hs : s ∈ ["pending", "succeeded", "declined", "failed"]) (hne : s ≠ "pending") :
    isTerminalStatus s = true := by
  simp only [List.mem_cons, List.mem_singleton, List.not_mem_nil, or_false] at hs
  rcases hs with h | h | h | h
  · exact absurd h hne
  · rw [h]; rfl
  · rw [h]; rfl
  · rw [h]; rfl

theorem pollFrom_first_non_pending (env : Nat → PollResponse)
    (apiBaseUrl paymentId apiToken : String) :
    ∀ k n i p, k < n →
      (∀ j, j < k → ∃ q, env (i + j) = PollResponse.payment q ∧ q.status = "pending") →
      env (i + k) = PollResponse.payment p →
      p.status ∈ ["pending", "succeeded", "declined", "failed"] →
      p.status ≠ "pending" →
      (pollFrom env apiBaseUrl paymentId apiToken i n).2 = Except.ok { payment := p } ∧
        countRequests (pollFrom env apiBaseUrl paymentId apiToken i n).1 = k + 1 := by
  intro k
  induction k with
  | zero =>
    intro n i p hk hpend hp hset hne
    cases n with
    | zero => omega
    | succ m =>
      simp only [Nat.add_zero] at hp
      have hterm := isTerminalStatus_of_ne_pending p.status hset hne
      simp [pollFrom, hp, hterm, countRequests]
  | succ k ih =>
    intro n i p hk hpend hp hset hne
    cases n with
    | zero => omega
    | succ m =>
      obtain ⟨q, hq, hqpend⟩ := hpend 0 (Nat.succ_pos k)
      simp only [Nat.add_zero] at hq
      have hqterm : isTerminalStatus q.status = false := by rw [hqpend]; rfl
      have hshift : ∀ j, j < k → ∃ r, env (i + 1 + j) = PollResponse.payment r ∧
          r.status = "pending" := by
        intro j hj
        have := hpend (j + 1) (Nat.succ_lt_succ hj)
        simpa [Nat.add_assoc, Nat.add_comm 1 j] using this
      have hp1 : env (i + 1 + k) = PollResponse.payment p := by
        have : i + 1 + k = i + (k + 1) := by omega
        rw [this]; exact hp
      have := ih m (i + 1) p (by omega) hshift hp1 hset hne
      simp only [pollFrom, hq, hqterm, if_false, Bool.false_eq_true, countRequests]
      exact ⟨this.1, by rw [this.2]⟩

end Backend

/-- A concrete pending payment, used to instantiate theorems at closed inputs. -/
def pendingPayment : Payment :=
  { id := "pay_1", amount := 2999, currency := "USD", status := "pending",
    subStatus := "", requireAction := RequireAction.none, requireActionData := Option.none,
    createdAt := "", error := Option.none }

/-- A concrete succeeded payment, used to instantiate theorems at closed inputs. -/
def succeededPayment : Payment :=
  { id := "pay_1", amount := 2999, currency := "USD", status := "succeeded",
    subStatus := "", requireAction := RequireAction.none, requireActionData := Option.none,
    createdAt := "", error := Option.none }

/-- A concrete poll environment: two pending observations, then succeeded. -/
def samplePollEnv : Nat → Backend.PollResponse := fun i =>
  Backend.PollResponse.payment (if i < 2 then pendingPayment else succeededPayment)

/-- C3: polled payments are terminal once the status leaves `pending`:
when every observed status is among `pending`, `succeeded`, `declined`,
`failed`, the polling loop returns the payment of the first attempt whose
status is not `pending`, and performs no request after that attempt —
exactly `k + 1` GET requests when the first non-pending status appears at
attempt index `k`. -/
theorem C3_pollPaymentStatus_stops_at_first_non_pending
    (env : Nat → Backend.PollResponse) (paymentId apiToken apiBaseUrl : String)
    (maxAttempts k : Nat) (p : Payment) (hk : k < maxAttempts)
    (hpend : ∀ j, j < k → ∃ q, env j = Backend.PollResponse.payment q ∧ q.status = "pending")
    (hp : env k = Backend.PollResponse.payment p)
    (hset : p.status ∈ ["pending", "succeeded", "declined", "failed"])
    (hne : p.status ≠ "pending") :
    (Backend.pollPaymentStatus env paymentId apiToken apiBaseUrl maxAttempts).2 =
        Except.ok { payment := p } ∧
      countRequests (Backend.pollPaymentStatus env paymentId apiToken apiBaseUrl maxAttempts).1 =
        k + 1 := by
  exact Backend.pollFrom_first_non_pending env apiBaseUrl paymentId apiToken k maxAttempts 0 p hk
    (by simpa using hpend) (by simpa using hp) hset hne

/-- Witness for C3: the status sequence pending, pending, succeeded makes the
loop return the succeeded payment after exactly three GET requests. -/
theorem C3_pollPaymentStatus_stops_at_first_non_pending_witness :
    (Backend.pollPaymentStatus samplePollEnv "pay_1" "tok" "https://app.tagadapay.com" 20).2 =
      Except.ok { payment := succeededPayment } ∧
    countRequests
      (Backend.pollPaymentStatus samplePollEnv "pay_1" "tok" "https://app.tagadapay.com" 20).1 =
      3 := by
  exact C3_pollPaymentStatus_stops_at_first_non_pending samplePollEnv
    "pay_1" "tok" "https://app.tagadapay.com" 20 2 succeededPayment
    (by decide)
    (fun j hj => ⟨pendingPayment, by simp [samplePollEnv, hj], rfl⟩)
    (by simp [samplePollEnv])
    (by simp [succeededPayment])
    (by simp [succeededPayment])

/-- C2: for every `paymentId` and every `maxAttempts`, `pollPaymentStatus`
issues at most `maxAttempts` GET requests (first conjunct); every action it
performs is either such a GET or a fixed 1500 ms wait (second conjunct);
and if every attempt observes a payment with a non-terminal status, the
trace is exactly `maxAttempts` GETs each followed by one 1500 ms wait and
the call throws an error whose message is `Payment verification timeout`
(third conjunct). -/
theorem C2_pollPaymentStatus_bounded_retry_timeout
    (env : Nat → Backend.PollResponse) (paymentId apiToken apiBaseUrl : String)
    (maxAttempts : Nat) :
    countRequests (Backend.pollPaymentStatus env paymentId apiToken apiBaseUrl maxAttempts).1 ≤
        maxAttempts ∧
    (∀ a ∈ (Backend.pollPaymentStatus env paymentId apiToken apiBaseUrl maxAttempts).1,
      a = Effect.request "GET" (Backend.pollUrl apiBaseUrl paymentId) ("Bearer " ++ apiToken) ∨
        a = Effect.wait 1500) ∧
    ((∀ j, j < maxAttempts → ∃ p, env j = Backend.PollResponse.payment p ∧
        Backend.isTerminalStatus p.status = false) →
      Backend.pollPaymentStatus env paymentId apiToken apiBaseUrl maxAttempts =
        (Backend.timeoutTrace (Backend.pollUrl apiBaseUrl paymentId) ("Bearer " ++ apiToken)
          maxAttempts,
         Except.error "Payment verification timeout")) := by
  refine ⟨Backend.countRequests_pollFrom_le env apiBaseUrl paymentId apiToken maxAttempts 0,
    fun a ha => Backend.mem_pollFrom env apiBaseUrl paymentId apiToken maxAttempts 0 a ha,
    fun h => ?_⟩
  exact Backend.pollFrom_all_nonterminal env apiBaseUrl paymentId apiToken maxAttempts 0
    (by simpa using h)

/-- Witness for C2 at a concrete environment that always reports a pending
payment: three attempts, trace of three GET/wait pairs, timeout error. -/
theorem C2_pollPaymentStatus_bounded_retry_timeout_witness :
    countRequests (Backend.pollPaymentStatus
        (fun _ => Backend.PollResponse.payment
          { id := "pay_1", amount := 2999, currency := "USD", status := "pending",
            subStatus := "", requireAction := RequireAction.none, requireActionData := Option.none,
            createdAt := "", error := Option.none })
        "pay_1" "tok" "https://app.tagadapay.com" 3).1 ≤ 3 ∧
    Backend.pollPaymentStatus
        (fun _ => Backend.PollResponse.payment
          { id := "pay_1", amount := 2999, currency := "USD", status := "pending",
            subStatus := "", requireAction := RequireAction.none, requireActionData := Option.none,
            createdAt := "", error := Option.none })
        "pay_1" "tok" "https://app.tagadapay.com" 3 =
      (Backend.timeoutTrace (Backend.pollUrl "https://app.tagadapay.com" "pay_1") "Bearer tok" 3,
       Except.error "Payment verification timeout") := by
  have h := C2_pollPaymentStatus_bounded_retry_timeout
    (fun _ => Backend.PollResponse.payment
      { id := "pay_1", amount := 2999, currency := "USD", status := "pending",
        subStatus := "", requireAction := RequireAction.none, requireActionData := Option.none,
        createdAt := "", error := Option.none })
    "pay_1" "tok" "https://app.tagadapay.com" 3
  exact ⟨h.1, h.2.2 (fun j _ => ⟨_, rfl, by decide⟩)⟩

namespace PaymentFlow

/-! ## `usePaymentFlow.ts` (`src/core-js-tokenization/src/hooks/usePaymentFlow.ts`)

The client-side orchestration hook.  Its three React state cells
(`isLoading`, `error`, `threeDsStatus`) form `HookState`; each method is a
state-passing function that also records its trace of `Effect`s.  External
outcomes (the backend client's responses, the vendor SDK) are environment
arguments.
-/

/-- The hook's client-side state cells. -/
structure HookState where
  isLoading : Bool
  error : Option String
  threeDsStatus : ThreeDsStatus
deriving DecidableEq, Repr

/-- A 3DS session created client-side by the vendor SDK (`createSession`). -/
structure LocalSession where
  sessionId : String
  provider : String
deriving DecidableEq, Repr

/-- The `actionData?.metadata?.threedsSession` optional-chaining read. -/
def sessionOf (p : Payment) : Option ThreedsSessionInfo :=
  match p.requireActionData with
  | Option.none => Option.none
  | some actionData =>
    match actionData.metadata with
    | Option.none => Option.none
    | some m => m.threedsSession

/-- JavaScript `payment.error?.message || 'Unknown error'`. -/
def errMessageOr (e : Option PaymentError) : String :=
  match e with
  | Option.none => "Unknown error"
  | some pe =>
    match pe.message with
    | Option.none => "Unknown error"
    | some m => if m = "" then "Unknown error" else m

/-- Hook `createPaymentInstrument`: sets loading, clears the error, delegates
to the backend client, stores the thrown message on failure, and always
clears the loading flag in its `finally`. -/
def createPaymentInstrumentOp (env : Backend.HttpOutcome PaymentInstrumentResult)
    (params : Backend.CreatePaymentInstrumentParams) (apiToken apiBaseUrl : String)
    (st : HookState) :
    List Effect × HookState × Except String PaymentInstrumentResult :=
  let pre := [Effect.setLoading true, Effect.setError Option.none]
  match Backend.createPaymentInstrument env params apiToken apiBaseUrl with
  | (callTrace, Except.ok v) =>
    (pre ++ callTrace ++ [Effect.setLoading false],
     { isLoading := false, error := Option.none, threeDsStatus := st.threeDsStatus },
     Except.ok v)
  | (callTrace, Except.error msg) =>
    (pre ++ callTrace ++ [Effect.setError (some msg), Effect.setLoading false],
     { isLoading := false, error := some msg, threeDsStatus := st.threeDsStatus },
     Except.error msg)

/-- Environment of `create3DSSession`: the SDK session creation and the
persist call's HTTP outcome. -/
structure Create3DSEnv where
  sdkSession : Except String LocalSession
  persistOutcome : Backend.HttpOutcome ThreedsSessionResult
deriving Repr

/-- Hook `create3DSSession`: sets loading and clears the error, creates the
session with the vendor SDK, persists it through the backend client, stores
the thrown message on failure, and always clears the loading flag. -/
def create3DSSessionOp (env : Create3DSEnv) (paymentInstrument : PaymentInstrument)
    (storeId apiToken apiBaseUrl : String) (st : HookState) :
    List Effect × HookState × Except String ThreedsSessionResult :=
  let pre := [Effect.setLoading true, Effect.setError Option.none]
  let ev1 := [Effect.sdkCreateSession paymentInstrument.id]
  match env.sdkSession with
  | Except.error msg =>
    (pre ++ ev1 ++ [Effect.setError (some msg), Effect.setLoading false],
     { isLoading := false, error := some msg, threeDsStatus := st.threeDsStatus },
     Except.error msg)
  | Except.ok localSession =>
    match Backend.persistThreedsSession env.persistOutcome
      { provider := localSession.provider, storeId := storeId,
        paymentInstrumentId := paymentInstrument.id } apiToken apiBaseUrl with
    | (callTrace, Except.ok v) =>
      (pre ++ ev1 ++ callTrace ++ [Effect.setLoading false],
       { isLoading := false, error := Option.none, threeDsStatus := st.threeDsStatus },
       Except.ok v)
    | (callTrace, Except.error msg) =>
      (pre ++ ev1 ++ callTrace ++ [Effect.setError (some msg), Effect.setLoading false],
       { isLoading := false, error := some msg, threeDsStatus := st.threeDsStatus },
       Except.error msg)

/-- Environment of `handle3DSChallenge`: the outcome of the SDK challenge
modal and the poll responses that follow it. -/
structure ChallengeEnv where
  challengeOutcome : Except String Unit
  pollEnv : Nat → Backend.PollResponse

/-- Hook `handle3DSChallenge`: returns `Option.none` without any effect when
the payment carries no 3DS session data; otherwise starts the SDK challenge,
polls the payment (the backend client's default of 20 attempts), and sets the
3DS status from the polled outcome. -/
def handle3DSChallengeOp (env : ChallengeEnv) (apiToken apiBaseUrl : String)
    (payment : Payment) (st : HookState) :
    List Effect × HookState × Except String (Option PaymentResponse) :=
  match sessionOf payment with
  | Option.none => ([], st, Except.ok Option.none)
  | some s =>
    let ev1 := [Effect.setStatus ThreeDsStatus.in_progress,
      Effect.sdkStartChallenge s.externalSessionId s.acsChallengeUrl s.acsTransID
        s.messageVersion]
    match env.challengeOutcome with
    | Except.error msg =>
      (ev1 ++ [Effect.setStatus ThreeDsStatus.failed, Effect.setError (some msg)],
       { isLoading := st.isLoading, error := some msg, threeDsStatus := ThreeDsStatus.failed },
       Except.error msg)
    | Except.ok _ =>
      match Backend.pollPaymentStatus env.pollEnv payment.id apiToken apiBaseUrl 20 with
      | (pollTrace, Except.error msg) =>
        (ev1 ++ pollTrace ++ [Effect.setStatus ThreeDsStatus.failed, Effect.setError (some msg)],
         { isLoading := st.isLoading, error := some msg, threeDsStatus := ThreeDsStatus.failed },
         Except.error msg)
      | (pollTrace, Except.ok finalResult) =>
        if finalResult.payment.status = "succeeded" then
          (ev1 ++ pollTrace ++ [Effect.setStatus ThreeDsStatus.completed],
           { isLoading := st.isLoading, error := st.error,
             threeDsStatus := ThreeDsStatus.completed },
           Except.ok (some finalResult))
        else
          (ev1 ++ pollTrace ++ [Effect.setStatus ThreeDsStatus.failed,
            Effect.setError (some ("Payment " ++ finalResult.payment.status ++ ": " ++
              errMessageOr finalResult.payment.error))],
           { isLoading := st.isLoading,
             error := some ("Payment " ++ finalResult.payment.status ++ ": " ++
               errMessageOr finalResult.payment.error),
             threeDsStatus := ThreeDsStatus.failed },
           Except.ok (some finalResult))

/-- Environment of `processPayment`: the process POST's outcome and, should a
challenge follow, its environment. -/
structure ProcessEnv where
  processOutcome : Backend.HttpOutcome PaymentResponse
  challenge : ChallengeEnv

/-- The guard under which `processPayment` enters the 3DS sub-flow:
`result.payment.requireAction !== 'none'` and then
`actionData?.type === 'threeds_auth' && actionData.metadata?.threedsSession`.
The source nests the two conditions; falling through either lands on the
same `return result`, so they are taken together here. -/
def threedsCondition (p : Payment) : Bool :=
  p.requireAction != RequireAction.none &&
    (match p.requireActionData with
     | some actionData =>
       actionData.type == ActionDataType.threeds_auth &&
         (match actionData.metadata with
          | some m => m.threedsSession.isSome
          | Option.none => false)
     | Option.none => false)

/-- Hook `processPayment`: sets loading, clears error and 3DS status, POSTs
the payment, enters the 3DS sub-flow exactly under `threedsCondition`, and
always clears the loading flag in its `finally`. -/
def processPaymentOp (env : ProcessEnv) (params : Backend.ProcessPaymentParams)
    (apiToken apiBaseUrl : String) (st : HookState) :
    List Effect × HookState × Except String PaymentResponse :=
  let pre := [Effect.setLoading true, Effect.setError Option.none,
    Effect.setStatus ThreeDsStatus.idle]
  match Backend.processPayment env.processOutcome params apiToken apiBaseUrl with
  | (callTrace, Except.error msg) =>
    (pre ++ callTrace ++ [Effect.setError (some msg), Effect.setStatus ThreeDsStatus.failed,
      Effect.setLoading false],
     { isLoading := false, error := some msg, threeDsStatus := ThreeDsStatus.failed },
     Except.error msg)
  | (callTrace, Except.ok result) =>
    if threedsCondition result.payment then
      let ev0 := [Effect.setStatus ThreeDsStatus.required]
      match handle3DSChallengeOp env.challenge apiToken apiBaseUrl result.payment
        { isLoading := true, error := Option.none, threeDsStatus := ThreeDsStatus.required } with
      | (innerTrace, _, Except.error msg) =>
        (pre ++ callTrace ++ ev0 ++ innerTrace ++ [Effect.setError (some msg),
          Effect.setStatus ThreeDsStatus.failed, Effect.setLoading false],
         { isLoading := false, error := some msg, threeDsStatus := ThreeDsStatus.failed },
         Except.error msg)
      | (innerTrace, innerState, Except.ok (some finalResult)) =>
        (pre ++ callTrace ++ ev0 ++ innerTrace ++ [Effect.setLoading false],
         { isLoading := false, error := innerState.error,
           threeDsStatus := innerState.threeDsStatus },
         Except.ok finalResult)
      | (innerTrace, innerState, Except.ok Option.none) =>
        (pre ++ callTrace ++ ev0 ++ innerTrace ++ [Effect.setLoading false],
         { isLoading := false, error := innerState.error,
           threeDsStatus := innerState.threeDsStatus },
         Except.ok result)
    else
      (pre ++ callTrace ++ [Effect.setLoading false],
       { isLoading := false, error := Option.none, threeDsStatus := ThreeDsStatus.idle },
       Except.ok result)

end PaymentFlow

namespace PaymentFlow

/-- The 3DS entry condition of the claim, as a proposition: `requireAction`
is not `none`, the action data has type `threeds_auth`, and its metadata
carries a 3DS session. -/
def threedsRequiredProp (p : Payment) : Prop :=
  p.requireAction ≠ RequireAction.none ∧
    ∃ actionData, p.requireActionData = some actionData ∧
      actionData.type = ActionDataType.threeds_auth ∧
      ∃ m, actionData.metadata = some m ∧ ∃ s, m.threedsSession = some s

theorem threedsCondition_iff (p : Payment) :
    threedsCondition p = true ↔ threedsRequiredProp p := by
  unfold threedsCondition threedsRequiredProp
  cases had : p.requireActionData with
  | none => simp [had]
  | some actionData =>
    cases hm : actionData.metadata with
    | none => simp [had, hm]
    | some m =>
      simp [had, hm, Option.isSome_iff_exists, bne_iff_ne]

theorem handle3DS_trace_shape (env : ChallengeEnv) (apiToken apiBaseUrl : String)
    (payment : Payment) (st : HookState) (s : ThreedsSessionInfo)
    (hs : sessionOf payment = some s) :
    ∃ rest, (handle3DSChallengeOp env apiToken apiBaseUrl payment st).1 =
      Effect.setStatus ThreeDsStatus.in_progress ::
        Effect.sdkStartChallenge s.externalSessionId s.acsChallengeUrl s.acsTransID
          s.messageVersion :: rest := by
  unfold handle3DSChallengeOp
  rw [hs]
  cases env.challengeOutcome with
  | error msg => exact ⟨_, rfl⟩
  | ok u =>
    rcases hpoll : Backend.pollPaymentStatus env.pollEnv payment.id apiToken apiBaseUrl 20 with
      ⟨pollTrace, pollRes⟩
    cases pollRes with
    | error msg => exact ⟨_, rfl⟩
    | ok finalResult =>
      by_cases hsucc : finalResult.payment.status = "succeeded"
      · simp only [hsucc, if_true]; exact ⟨_, rfl⟩
      · simp only [hsucc, if_false]; exact ⟨_, rfl⟩

theorem sessionOf_of_threedsRequired (p : Payment) (h : threedsRequiredProp p) :
    ∃ s, sessionOf p = some s := by
  obtain ⟨-, actionData, had, -, m, hm, s, hs⟩ := h
  exact ⟨s, by simp [sessionOf, had, hm, hs]⟩

end PaymentFlow

/-- C1: for every payment-process response, the 3DS challenge sub-flow is
entered (an SDK `startChallenge` call appears in the trace) if and only if
the returned payment's `requireAction` is not `none`, its
`requireActionData.type` is `threeds_auth` and
`requireActionData.metadata.threedsSession` is present; in every other case
`processPayment` returns the initial payment result and starts no
challenge. -/
theorem C1_processPayment_enters_threeds_iff
    (env : PaymentFlow.ProcessEnv) (params : Backend.ProcessPaymentParams)
    (apiToken apiBaseUrl : String) (st : PaymentFlow.HookState) (r : PaymentResponse)
    (h : env.processOutcome = Backend.HttpOutcome.ok r) :
    (PaymentFlow.threedsRequiredProp r.payment ↔
      ∃ a b c d, Effect.sdkStartChallenge a b c d ∈
        (PaymentFlow.processPaymentOp env params apiToken apiBaseUrl st).1) ∧
    (¬ PaymentFlow.threedsRequiredProp r.payment →
      (PaymentFlow.processPaymentOp env params apiToken apiBaseUrl st).2.2 = Except.ok r ∧
        ∀ a b c d, Effect.sdkStartChallenge a b c d ∉
          (PaymentFlow.processPaymentOp env params apiToken apiBaseUrl st).1) := by
  by_cases hcond : PaymentFlow.threedsCondition r.payment = true
  · have hreq : PaymentFlow.threedsRequiredProp r.payment :=
      (PaymentFlow.threedsCondition_iff r.payment).mp hcond
    obtain ⟨s, hs⟩ := PaymentFlow.sessionOf_of_threedsRequired r.payment hreq
    obtain ⟨rest, hshape⟩ := PaymentFlow.handle3DS_trace_shape env.challenge apiToken apiBaseUrl
      r.payment
      { isLoading := true, error := Option.none, threeDsStatus := ThreeDsStatus.required } s hs
    constructor
    · constructor
      · intro _
        refine ⟨s.externalSessionId, s.acsChallengeUrl, s.acsTransID, s.messageVersion, ?_⟩
        unfold PaymentFlow.processPaymentOp
        simp only [Backend.processPayment, h, hcond, if_true]
        rcases hin : PaymentFlow.handle3DSChallengeOp env.challenge apiToken apiBaseUrl r.payment
          { isLoading := true, error := Option.none, threeDsStatus := ThreeDsStatus.required } with
          ⟨innerTrace, innerSt, innerRes⟩
        rw [hin] at hshape
        simp only at hshape
        cases innerRes with
        | error msg => simp [hshape]
        | ok o =>
          cases o with
          | none => simp [hshape]
          | some finalResult => simp [hshape]
      · intro _; exact hreq
    · intro hn; exact absurd hreq hn
  · have hreq : ¬ PaymentFlow.threedsRequiredProp r.payment := by
      rw [← PaymentFlow.threedsCondition_iff]; simpa using hcond
    have htrace : (PaymentFlow.processPaymentOp env params apiToken apiBaseUrl st).1 =
        [Effect.setLoading true, Effect.setError Option.none,
         Effect.setStatus ThreeDsStatus.idle,
         Effect.request "POST" (apiBaseUrl ++ "/api/public/v1/payments/process")
           ("Bearer " ++ apiToken),
         Effect.setLoading false] ∧
        (PaymentFlow.processPaymentOp env params apiToken apiBaseUrl st).2.2 = Except.ok r := by
      unfold PaymentFlow.processPaymentOp
      simp [Backend.processPayment, h, hcond]
    constructor
    · constructor
      · intro hx; exact absurd hx hreq
      · rintro ⟨a, b, c, d, hmem⟩
        rw [htrace.1] at hmem
        simp at hmem
    · intro _
      refine ⟨htrace.2, ?_⟩
      intro a b c d hmem
      rw [htrace.1] at hmem
      simp at hmem

/-- A concrete 3DS session descriptor. -/
def sampleSession : ThreedsSessionInfo :=
  { externalSessionId := "3ds_1", acsChallengeUrl := "https://acs.example/c",
    acsTransID := "trans_1", messageVersion := "2.2.0" }

/-- A concrete payment requiring a 3DS challenge. -/
def threedsPayment : Payment :=
  { id := "pay_2", amount := 2999, currency := "USD", status := "pending",
    subStatus := "", requireAction := RequireAction.threeds_auth,
    requireActionData := some
      { type := ActionDataType.threeds_auth, processed := false,
        metadata := some
          { threedsSession := some sampleSession } },
    createdAt := "", error := Option.none }

/-- A concrete process environment whose POST returns `threedsPayment` and
whose challenge then succeeds, followed by a succeeded poll. -/
def sampleProcessEnv : PaymentFlow.ProcessEnv :=
  { processOutcome := Backend.HttpOutcome.ok { payment := threedsPayment },
    challenge :=
      { challengeOutcome := Except.ok (),
        pollEnv := fun _ => Backend.PollResponse.payment succeededPayment } }

/-- A concrete process environment whose POST returns a payment with
`requireAction = 'none'`. -/
def sampleProcessEnvNoAction : PaymentFlow.ProcessEnv :=
  { processOutcome := Backend.HttpOutcome.ok { payment := succeededPayment },
    challenge :=
      { challengeOutcome := Except.ok (),
        pollEnv := fun _ => Backend.PollResponse.payment succeededPayment } }

/-- Concrete process-payment parameters. -/
def sampleProcessParams : Backend.ProcessPaymentParams :=
  { amount := 2999, currency := "USD", storeId := "store_eaa20d619f6b",
    paymentInstrumentId := "pi_1", threedsSessionId := Option.none }

/-- The hook state before a sample operation. -/
def idleState : PaymentFlow.HookState :=
  { isLoading := false, error := Option.none, threeDsStatus := ThreeDsStatus.idle }

/-- Witness for C1: with a 3DS-requiring response the challenge is started;
with a `requireAction = 'none'` response the initial result is returned and
no challenge appears in the trace. -/
theorem C1_processPayment_enters_threeds_iff_witness :
    (∃ a b c d, Effect.sdkStartChallenge a b c d ∈
      (PaymentFlow.processPaymentOp sampleProcessEnv sampleProcessParams "tok"
        "https://app.tagadapay.com" idleState).1) ∧
    (PaymentFlow.processPaymentOp sampleProcessEnvNoAction sampleProcessParams "tok"
        "https://app.tagadapay.com" idleState).2.2 =
      Except.ok { payment := succeededPayment } := by
  constructor
  · exact (C1_processPayment_enters_threeds_iff sampleProcessEnv sampleProcessParams "tok"
      "https://app.tagadapay.com" idleState { payment := threedsPayment } rfl).1.mp
      (by
        refine ⟨by decide, ?_⟩
        exact ⟨_, rfl, rfl, _, rfl, _, rfl⟩)
  · exact ((C1_processPayment_enters_threeds_iff sampleProcessEnvNoAction sampleProcessParams
      "tok" "https://app.tagadapay.com" idleState { payment := succeededPayment } rfl).2
      (by
        rintro ⟨hne, -⟩
        exact hne rfl)).1

namespace PaymentFlow

theorem createPaymentInstrumentOp_loading (env : Backend.HttpOutcome PaymentInstrumentResult)
    (params : Backend.CreatePaymentInstrumentParams) (apiToken apiBaseUrl : String)
    (st : HookState) :
    (createPaymentInstrumentOp env params apiToken apiBaseUrl st).1.head? =
        some (Effect.setLoading true) ∧
      (createPaymentInstrumentOp env params apiToken apiBaseUrl st).2.1.isLoading = false := by
  cases env <;> exact ⟨rfl, rfl⟩

theorem create3DSSessionOp_loading (env : Create3DSEnv) (paymentInstrument : PaymentInstrument)
    (storeId apiToken apiBaseUrl : String) (st : HookState) :
    (create3DSSessionOp env paymentInstrument storeId apiToken apiBaseUrl st).1.head? =
        some (Effect.setLoading true) ∧
      (create3DSSessionOp env paymentInstrument storeId apiToken apiBaseUrl st).2.1.isLoading =
        false := by
  rcases env with ⟨sdk, persist⟩
  cases sdk with
  | error msg => exact ⟨rfl, rfl⟩
  | ok localSession => cases persist <;> exact ⟨rfl, rfl⟩

theorem processPaymentOp_loading (env : ProcessEnv) (params : Backend.ProcessPaymentParams)
    (apiToken apiBaseUrl : String) (st : HookState) :
    (processPaymentOp env params apiToken apiBaseUrl st).1.head? =
        some (Effect.setLoading true) ∧
      (processPaymentOp env params apiToken apiBaseUrl st).2.1.isLoading = false := by
  rcases env with ⟨proc, chal⟩
  cases proc with
  | httpError f => exact ⟨rfl, rfl⟩
  | ok result =>
    by_cases hcond : threedsCondition result.payment = true
    · unfold processPaymentOp
      simp only [Backend.processPayment, hcond, if_true]
      rcases hin : handle3DSChallengeOp chal apiToken apiBaseUrl result.payment
        { isLoading := true, error := Option.none, threeDsStatus := ThreeDsStatus.required } with
        ⟨innerTrace, innerSt, innerRes⟩
      cases innerRes with
      | error msg => exact ⟨rfl, rfl⟩
      | ok o =>
        cases o with
        | none => exact ⟨rfl, rfl⟩
        | some finalResult => exact ⟨rfl, rfl⟩
    · unfold processPaymentOp
      simp only [Bool.not_eq_true] at hcond
      simp only [Backend.processPayment, hcond, Bool.false_eq_true, if_false]
      exact ⟨rfl, trivial⟩

end PaymentFlow

/-- The create-payment-instrument button of the core-js demo App:
`disabled = isLoading || !apiToken.trim() || !storeId.trim()`. -/
def createInstrumentButtonDisabled (isLoading : Bool) (apiToken storeId : String) : Bool :=
  isLoading || apiToken.trim == "" || storeId.trim == ""

/-- The create-3DS-session button of the core-js demo App:
`disabled = isLoading`. -/
def createSessionButtonDisabled (isLoading : Bool) : Bool :=
  isLoading

/-- The process-payment button of the core-js demo App:
`disabled = isLoading || !paymentAmount || !storeId.trim()` (a JS number is
falsy exactly when it is zero). -/
def processButtonDisabled (isLoading : Bool) (paymentAmount : Int) (storeId : String) : Bool :=
  isLoading || paymentAmount == 0 || storeId.trim == ""

/-- C8: each submission operation of the hook sets the loading flag to true
as its very first action — in particular before any request or SDK call —
and finishes with the flag false, on the success and on the error path alike
(the environments quantify over both); and whenever the loading flag is
true, each of the three submit buttons is disabled. -/
theorem C8_loading_flags_guard_submissions
    (envA : Backend.HttpOutcome PaymentInstrumentResult)
    (paramsA : Backend.CreatePaymentInstrumentParams)
    (envB : PaymentFlow.Create3DSEnv) (paymentInstrument : PaymentInstrument)
    (envC : PaymentFlow.ProcessEnv) (paramsC : Backend.ProcessPaymentParams)
    (storeId apiToken apiBaseUrl : String) (st1 st2 st3 : PaymentFlow.HookState) :
    ((PaymentFlow.createPaymentInstrumentOp envA paramsA apiToken apiBaseUrl st1).1.head? =
        some (Effect.setLoading true) ∧
      (PaymentFlow.createPaymentInstrumentOp envA paramsA apiToken apiBaseUrl st1).2.1.isLoading =
        false) ∧
    ((PaymentFlow.create3DSSessionOp envB paymentInstrument storeId apiToken apiBaseUrl
        st2).1.head? = some (Effect.setLoading true) ∧
      (PaymentFlow.create3DSSessionOp envB paymentInstrument storeId apiToken apiBaseUrl
        st2).2.1.isLoading = false) ∧
    ((PaymentFlow.processPaymentOp envC paramsC apiToken apiBaseUrl st3).1.head? =
        some (Effect.setLoading true) ∧
      (PaymentFlow.processPaymentOp envC paramsC apiToken apiBaseUrl st3).2.1.isLoading =
        false) ∧
    (∀ tok sid : String, createInstrumentButtonDisabled true tok sid = true) ∧
    createSessionButtonDisabled true = true ∧
    (∀ (amount : Int) (sid : String), processButtonDisabled true amount sid = true) :=
  ⟨PaymentFlow.createPaymentInstrumentOp_loading envA paramsA apiToken apiBaseUrl st1,
   PaymentFlow.create3DSSessionOp_loading envB paymentInstrument storeId apiToken apiBaseUrl st2,
   PaymentFlow.processPaymentOp_loading envC paramsC apiToken apiBaseUrl st3,
   fun tok sid => rfl, rfl, fun amount sid => rfl⟩

/-- A concrete HTTP failure whose body carries an `error` field. -/
def sampleFailure : Backend.HttpFailure :=
  { status := 402, statusText := "Payment Required", errorField := some "Card was declined" }

/-- Concrete create-payment-instrument parameters. -/
def sampleCreateParams : Backend.CreatePaymentInstrumentParams :=
  { tagadaToken := "tt", storeId := "store_eaa20d619f6b",
    customerData := { email := "demo@example.com", firstName := "Demo", lastName := "User" } }

/-- Concrete persist-session parameters. -/
def samplePersistParams : Backend.PersistThreedsSessionParams :=
  { provider := "basistheory", storeId := "store_eaa20d619f6b", paymentInstrumentId := "pi_1" }

/-- A concrete payment instrument. -/
def samplePaymentInstrument : PaymentInstrument :=
  { id := "pi_1", type := "card", customerId := "cus_1", accountId := "acc_1", isActive := true,
    isDefault := true, tokenizer := "basistheory", createdAt := "",
    card := { last4 := "4242", brand := "visa", expYear := 2030, expMonth := 12 } }

/-- A concrete SDK-created local 3DS session. -/
def sampleLocalSession : PaymentFlow.LocalSession :=
  { sessionId := "bt_1", provider := "basistheory" }

/-- A concrete challenge environment (unused branches of error-path tests). -/
def sampleChallengeEnv : PaymentFlow.ChallengeEnv :=
  { challengeOutcome := Except.ok (),
    pollEnv := fun _ => Backend.PollResponse.payment succeededPayment }

/-- C5: when an HTTP response is not ok, each backend operation throws an
`Error` whose message is `errorData.error || fallback`: the response's
non-empty `error` field when present, otherwise the endpoint's fallback
string, which ends with — hence contains — the HTTP status text.  The hook
then stores exactly that message in its `error` state, having issued exactly
one request (no retry). -/
theorem C5_http_errors_surfaced_once
    (f : Backend.HttpFailure)
    (paramsA : Backend.CreatePaymentInstrumentParams)
    (paramsB : Backend.PersistThreedsSessionParams)
    (paramsC : Backend.ProcessPaymentParams)
    (paymentInstrument : PaymentInstrument) (localSession : PaymentFlow.LocalSession)
    (chal : PaymentFlow.ChallengeEnv)
    (storeId apiToken apiBaseUrl : String) (st : PaymentFlow.HookState) :
    (Backend.createPaymentInstrument (Backend.HttpOutcome.httpError f) paramsA apiToken
        apiBaseUrl).2 =
      Except.error (Backend.jsOrString f.errorField
        ("Failed to create payment instrument: " ++ f.statusText)) ∧
    (Backend.persistThreedsSession (Backend.HttpOutcome.httpError f) paramsB apiToken
        apiBaseUrl).2 =
      Except.error (Backend.jsOrString f.errorField
        ("Failed to persist session: " ++ f.statusText)) ∧
    (Backend.processPayment (Backend.HttpOutcome.httpError f) paramsC apiToken apiBaseUrl).2 =
      Except.error (Backend.jsOrString f.errorField
        ("Failed to process payment: " ++ f.statusText)) ∧
    (∀ e fb, f.errorField = some e → e ≠ "" → Backend.jsOrString f.errorField fb = e) ∧
    (∀ fb, f.errorField = Option.none → Backend.jsOrString f.errorField fb = fb) ∧
    (∃ p1, "Failed to create payment instrument: " ++ f.statusText = p1 ++ f.statusText) ∧
    (∃ p2, "Failed to persist session: " ++ f.statusText = p2 ++ f.statusText) ∧
    (∃ p3, "Failed to process payment: " ++ f.statusText = p3 ++ f.statusText) ∧
    ((PaymentFlow.createPaymentInstrumentOp (Backend.HttpOutcome.httpError f) paramsA apiToken
        apiBaseUrl st).2.1.error =
      some (Backend.jsOrString f.errorField
        ("Failed to create payment instrument: " ++ f.statusText)) ∧
      countRequests (PaymentFlow.createPaymentInstrumentOp (Backend.HttpOutcome.httpError f)
        paramsA apiToken apiBaseUrl st).1 = 1) ∧
    ((PaymentFlow.create3DSSessionOp
        { sdkSession := Except.ok localSession,
          persistOutcome := Backend.HttpOutcome.httpError f }
        paymentInstrument storeId apiToken apiBaseUrl st).2.1.error =
      some (Backend.jsOrString f.errorField ("Failed to persist session: " ++ f.statusText)) ∧
      countRequests (PaymentFlow.create3DSSessionOp
        { sdkSession := Except.ok localSession,
          persistOutcome := Backend.HttpOutcome.httpError f }
        paymentInstrument storeId apiToken apiBaseUrl st).1 = 1) ∧
    ((PaymentFlow.processPaymentOp
        { processOutcome := Backend.HttpOutcome.httpError f, challenge := chal }
        paramsC apiToken apiBaseUrl st).2.1.error =
      some (Backend.jsOrString f.errorField ("Failed to process payment: " ++ f.statusText)) ∧
      countRequests (PaymentFlow.processPaymentOp
        { processOutcome := Backend.HttpOutcome.httpError f, challenge := chal }
        paramsC apiToken apiBaseUrl st).1 = 1) := by
  refine ⟨rfl, rfl, rfl, ?_, ?_, ⟨"Failed to create payment instrument: ", rfl⟩,
    ⟨"Failed to persist session: ", rfl⟩, ⟨"Failed to process payment: ", rfl⟩,
    ⟨rfl, rfl⟩, ⟨rfl, rfl⟩, ⟨rfl, rfl⟩⟩
  · intro e fb he hne
    rw [he]
    simp [Backend.jsOrString, hne]
  · intro fb he
    rw [he]
    rfl

/-- Witness for C5: a 402 response with body `error: 'Card was declined'`
leaves exactly that string in the hook's error state. -/
theorem C5_http_errors_surfaced_once_witness :
    (PaymentFlow.createPaymentInstrumentOp (Backend.HttpOutcome.httpError sampleFailure)
        sampleCreateParams "tok" "https://app.tagadapay.com" idleState).2.1.error =
      some "Card was declined" ∧
    Backend.jsOrString sampleFailure.errorField
      ("Failed to create payment instrument: " ++ sampleFailure.statusText) =
      "Card was declined" := by
  obtain ⟨hA, hB, hC, hPresent, hAbsent, hFb1, hFb2, hFb3, hHook1, hHook2, hHook3⟩ :=
    C5_http_errors_surfaced_once sampleFailure sampleCreateParams samplePersistParams
      sampleProcessParams samplePaymentInstrument sampleLocalSession sampleChallengeEnv
      "store_eaa20d619f6b" "tok" "https://app.tagadapay.com" idleState
  have hmsg := hPresent "Card was declined"
    ("Failed to create payment instrument: " ++ sampleFailure.statusText) rfl (by decide)
  exact ⟨by rw [hHook1.1, hmsg], hmsg⟩

/-- The endpoint discipline of the claim: any HTTP request is a POST to one
of the three fixed paths or a GET of a payment by id, and carries the
bearer Authorization header. -/
def onAllowedEndpoint (apiBaseUrl apiToken : String) (a : Effect) : Prop :=
  ∀ m u hdr, a = Effect.request m u hdr →
    hdr = "Bearer " ++ apiToken ∧
    ((m = "POST" ∧ u = apiBaseUrl ++ "/api/public/v1/payment-instruments/create-from-token") ∨
     (m = "POST" ∧ u = apiBaseUrl ++ "/api/public/v1/threeds/create-session") ∨
     (m = "POST" ∧ u = apiBaseUrl ++ "/api/public/v1/payments/process") ∨
     (m = "GET" ∧ ∃ paymentId, u = apiBaseUrl ++ "/api/public/v1/payments/" ++ paymentId))

/-- C6: every HTTP request issued by the four backend functions targets one
of exactly the four endpoint paths of the spec, and carries an
`Authorization: Bearer <token>` header. -/
theorem C6_backend_requests_on_four_endpoints
    (env1 : Backend.HttpOutcome PaymentInstrumentResult)
    (paramsA : Backend.CreatePaymentInstrumentParams)
    (env2 : Backend.HttpOutcome ThreedsSessionResult)
    (paramsB : Backend.PersistThreedsSessionParams)
    (env3 : Backend.HttpOutcome PaymentResponse)
    (paramsC : Backend.ProcessPaymentParams)
    (pollEnv : Nat → Backend.PollResponse) (paymentId : String)
    (apiToken apiBaseUrl : String) (maxAttempts : Nat) :
    (∀ a ∈ (Backend.createPaymentInstrument env1 paramsA apiToken apiBaseUrl).1,
      onAllowedEndpoint apiBaseUrl apiToken a) ∧
    (∀ a ∈ (Backend.persistThreedsSession env2 paramsB apiToken apiBaseUrl).1,
      onAllowedEndpoint apiBaseUrl apiToken a) ∧
    (∀ a ∈ (Backend.processPayment env3 paramsC apiToken apiBaseUrl).1,
      onAllowedEndpoint apiBaseUrl apiToken a) ∧
    (∀ a ∈ (Backend.pollPaymentStatus pollEnv paymentId apiToken apiBaseUrl maxAttempts).1,
      onAllowedEndpoint apiBaseUrl apiToken a) := by
  refine ⟨?_, ?_, ?_, ?_⟩
  · intro a ha
    cases env1 <;>
      (simp [Backend.createPaymentInstrument] at ha; subst ha; intro m u hdr heq; cases heq;
        exact ⟨rfl, Or.inl ⟨rfl, rfl⟩⟩)
  · intro a ha
    cases env2 <;>
      (simp [Backend.persistThreedsSession] at ha; subst ha; intro m u hdr heq; cases heq;
        exact ⟨rfl, Or.inr (Or.inl ⟨rfl, rfl⟩)⟩)
  · intro a ha
    cases env3 <;>
      (simp [Backend.processPayment] at ha; subst ha; intro m u hdr heq; cases heq;
        exact ⟨rfl, Or.inr (Or.inr (Or.inl ⟨rfl, rfl⟩))⟩)
  · intro a ha
    rcases Backend.mem_pollFrom pollEnv apiBaseUrl paymentId apiToken maxAttempts 0 a ha with
      heq | heq
    · subst heq
      intro m u hdr h2
      cases h2
      exact ⟨rfl, Or.inr (Or.inr (Or.inr ⟨rfl, paymentId, rfl⟩))⟩
    · subst heq
      intro m u hdr h2
      cases h2

/-- Witness for C6: each of the four request shapes, taken from a concrete
run of the corresponding function, is on an allowed endpoint. -/
theorem C6_backend_requests_on_four_endpoints_witness :
    onAllowedEndpoint "https://app.tagadapay.com" "tok"
      (Effect.request "POST"
        ("https://app.tagadapay.com" ++ "/api/public/v1/payment-instruments/create-from-token")
        ("Bearer " ++ "tok")) ∧
    onAllowedEndpoint "https://app.tagadapay.com" "tok"
      (Effect.request "POST" ("https://app.tagadapay.com" ++ "/api/public/v1/threeds/create-session")
        ("Bearer " ++ "tok")) ∧
    onAllowedEndpoint "https://app.tagadapay.com" "tok"
      (Effect.request "POST" ("https://app.tagadapay.com" ++ "/api/public/v1/payments/process")
        ("Bearer " ++ "tok")) ∧
    onAllowedEndpoint "https://app.tagadapay.com" "tok"
      (Effect.request "GET" ("https://app.tagadapay.com" ++ "/api/public/v1/payments/" ++ "pay_1")
        ("Bearer " ++ "tok")) := by
  have h := C6_backend_requests_on_four_endpoints
    (Backend.HttpOutcome.httpError sampleFailure) sampleCreateParams
    (Backend.HttpOutcome.httpError sampleFailure) samplePersistParams
    (Backend.HttpOutcome.httpError sampleFailure) sampleProcessParams
    (fun _ => Backend.PollResponse.notOk) "pay_1" "tok" "https://app.tagadapay.com" 1
  exact ⟨h.1 _ (List.mem_singleton.mpr rfl), h.2.1 _ (List.mem_singleton.mpr rfl),
    h.2.2.1 _ (List.mem_singleton.mpr rfl), h.2.2.2 _ (List.mem_singleton.mpr rfl)⟩

/-- An effect that creates server-side payment state: a POST request (the
create-session and process endpoints are POSTs) or an SDK session creation.
Polling GETs, waits, SDK challenges and state updates are not write calls. -/
def isBackendWriteCall : Effect → Bool
  | Effect.sdkCreateSession _ => true
  | Effect.request m _ _ => m == "POST"
  | _ => false

namespace AppP5

/-! ## The basic tokenization demo (`src/unnamed/part_005`)

Its `App.tsx` carries its own inline copies of `pollPaymentStatus`,
`handle3DSChallenge` and a `retryChallenge` action; `setApiError` is
recorded as `Effect.setError`.
-/

/-- The inline `pollPaymentStatus` of `part_005`: same loop as the backend
one, with `Bearer apiToken.trim()` and the message
`Invalid payment response from server`. -/
def pollFrom (env : Nat → Backend.PollResponse) (apiBaseUrl paymentId apiToken : String) :
    Nat → Nat → List Effect × Except String PaymentResponse
  | _, 0 => ([], Except.error "Payment verification timeout")
  | i, remaining + 1 =>
    let act := Effect.request "GET" (apiBaseUrl ++ "/api/public/v1/payments/" ++ paymentId)
      ("Bearer " ++ apiToken.trim)
    match env i with
    | Backend.PollResponse.notOk => ([act], Except.error "Failed to fetch payment status")
    | Backend.PollResponse.invalidPayment =>
      ([act], Except.error "Invalid payment response from server")
    | Backend.PollResponse.payment p =>
      if Backend.isTerminalStatus p.status then
        ([act], Except.ok { payment := p })
      else
        let rest := pollFrom env apiBaseUrl paymentId apiToken (i + 1) remaining
        (act :: Effect.wait 1500 :: rest.1, rest.2)

/-- The `pollPaymentStatus(paymentId, maxAttempts = 20)` of `part_005`. -/
def pollPaymentStatus (env : Nat → Backend.PollResponse)
    (apiBaseUrl apiToken paymentId : String) (maxAttempts : Nat) :
    List Effect × Except String PaymentResponse :=
  pollFrom env apiBaseUrl paymentId apiToken 0 maxAttempts

theorem mem_pollFrom_p5 (env : Nat → Backend.PollResponse)
    (apiBaseUrl paymentId apiToken : String) :
    ∀ n i a, a ∈ (pollFrom env apiBaseUrl paymentId apiToken i n).1 →
      a = Effect.request "GET" (apiBaseUrl ++ "/api/public/v1/payments/" ++ paymentId)
          ("Bearer " ++ apiToken.trim) ∨
        a = Effect.wait 1500 := by
  intro n
  induction n with
  | zero => intro i a ha; simp [pollFrom] at ha
  | succ m ih =>
    intro i a ha
    cases henv : env i with
    | notOk => simp [pollFrom, henv] at ha; left; simp [ha]
    | invalidPayment => simp [pollFrom, henv] at ha; left; simp [ha]
    | payment p =>
      by_cases h : Backend.isTerminalStatus p.status
      · simp [pollFrom, henv, h] at ha; left; simp [ha]
      · simp only [pollFrom, henv, h, if_false, Bool.false_eq_true, List.mem_cons] at ha
        rcases ha with h1 | h1 | h1
        · left; simp [h1]
        · right; exact h1
        · exact ih (i + 1) a h1

/-- The `handle3DSChallenge(paymentResult)` of `part_005`: saves the
challenge data for retry, runs the SDK challenge with the saved session
fields, sets status completed, polls, stores the polled result, and sets
the final status (with `Payment failed after 3DS authentication` on a
non-succeeded outcome). -/
def handle3DSChallenge (env : PaymentFlow.ChallengeEnv) (apiBaseUrl apiToken : String)
    (paymentResult : PaymentResponse) : List Effect × Except String Unit :=
  match PaymentFlow.sessionOf paymentResult.payment with
  | Option.none => ([], Except.ok ())
  | some s =>
    let ev1 := [Effect.setLastChallengeData (some paymentResult),
      Effect.setStatus ThreeDsStatus.in_progress,
      Effect.sdkStartChallenge s.externalSessionId s.acsChallengeUrl s.acsTransID
        s.messageVersion]
    match env.challengeOutcome with
    | Except.error msg =>
      (ev1 ++ [Effect.setStatus ThreeDsStatus.failed, Effect.setError (some msg)],
       Except.error msg)
    | Except.ok _ =>
      match pollPaymentStatus env.pollEnv apiBaseUrl apiToken paymentResult.payment.id 20 with
      | (pollTrace, Except.error msg) =>
        (ev1 ++ [Effect.setStatus ThreeDsStatus.completed] ++ pollTrace ++
          [Effect.setStatus ThreeDsStatus.failed, Effect.setError (some msg)],
         Except.error msg)
      | (pollTrace, Except.ok finalResult) =>
        if finalResult.payment.status = "succeeded" then
          (ev1 ++ [Effect.setStatus ThreeDsStatus.completed] ++ pollTrace ++
            [Effect.setPaymentResult (some finalResult),
             Effect.setStatus ThreeDsStatus.completed],
           Except.ok ())
        else
          (ev1 ++ [Effect.setStatus ThreeDsStatus.completed] ++ pollTrace ++
            [Effect.setPaymentResult (some finalResult),
             Effect.setStatus ThreeDsStatus.failed,
             Effect.setError (some "Payment failed after 3DS authentication")],
           Except.ok ())

/-- The `retryChallenge` of `part_005`: with no saved challenge data it only
sets an error; otherwise it clears the error and status and re-runs
`handle3DSChallenge` on the saved data (the catch only logs). -/
def retryChallenge (env : PaymentFlow.ChallengeEnv) (apiBaseUrl apiToken : String)
    (lastChallengeData : Option PaymentResponse) : List Effect :=
  match lastChallengeData with
  | Option.none => [Effect.setError (some "No challenge data available to retry")]
  | some d =>
    [Effect.setError Option.none, Effect.setStatus ThreeDsStatus.idle] ++
      (handle3DSChallenge env apiBaseUrl apiToken d).1

end AppP5

namespace AppCoreJs

/-! ## The core-js demo App (`src/core-js-tokenization/src/App.tsx`)

Its `retry3DSFromBeginning` resets the 3DS state, creates a fresh 3DS
session through the hook, and processes the payment anew with the fresh
session's id.
-/

/-- Environment of a retry run: the create-session and the process flows. -/
structure RetryEnv where
  create : PaymentFlow.Create3DSEnv
  process : PaymentFlow.ProcessEnv

/-- The `retry3DSFromBeginning` of the core-js App: reset state, create a
new 3DS session, store it, process the payment with the new session id,
store the result; a failure of either step stops there (the catch only
logs). -/
def retry3DSFromBeginning (env : RetryEnv) (piResult : PaymentInstrumentResult)
    (amount : Int) (storeId apiToken apiBaseUrl : String) (st : PaymentFlow.HookState) :
    List Effect :=
  let pre := [Effect.setStatus ThreeDsStatus.idle, Effect.setError Option.none,
    Effect.setThreedsSessionResult Option.none, Effect.setPaymentResult Option.none]
  match PaymentFlow.create3DSSessionOp env.create piResult.paymentInstrument storeId.trim
    apiToken apiBaseUrl st with
  | (createTrace, _, Except.error _) => pre ++ createTrace
  | (createTrace, createState, Except.ok newSession) =>
    match PaymentFlow.processPaymentOp env.process
      { amount := amount, currency := "USD", storeId := storeId.trim,
        paymentInstrumentId := piResult.paymentInstrument.id,
        threedsSessionId := some newSession.id } apiToken apiBaseUrl createState with
    | (procTrace, _, Except.error _) =>
      pre ++ createTrace ++ [Effect.setThreedsSessionResult (some newSession)] ++ procTrace
    | (procTrace, _, Except.ok result) =>
      pre ++ createTrace ++ [Effect.setThreedsSessionResult (some newSession)] ++ procTrace ++
        [Effect.setPaymentResult (some result)]

end AppCoreJs

namespace AppP5

theorem pollFrom_no_write (env : Nat → Backend.PollResponse)
    (apiBaseUrl paymentId apiToken : String) :
    ∀ n i, ((pollFrom env apiBaseUrl paymentId apiToken i n).1.all
      fun a => !(isBackendWriteCall a)) = true := by
  intro n
  induction n with
  | zero => intro i; rfl
  | succ m ih =>
    intro i
    cases henv : env i with
    | notOk => simp only [pollFrom]; rw [henv]; rfl
    | invalidPayment => simp only [pollFrom]; rw [henv]; rfl
    | payment p =>
      by_cases h : Backend.isTerminalStatus p.status
      · simp only [pollFrom]; rw [henv]; simp only [h, if_true]; rfl
      · simp only [pollFrom]; rw [henv]
        simp only [h, if_false, Bool.false_eq_true, List.all_cons, Bool.and_eq_true]
        exact ⟨rfl, rfl, ih (i + 1)⟩

theorem handle3DSChallenge_no_write_mem (env : PaymentFlow.ChallengeEnv)
    (apiBaseUrl apiToken : String) (pr : PaymentResponse) :
    ∀ a ∈ (handle3DSChallenge env apiBaseUrl apiToken pr).1,
      isBackendWriteCall a = false := by
  intro a ha
  unfold handle3DSChallenge at ha
  rcases hs : PaymentFlow.sessionOf pr.payment with _ | s
  · rw [hs] at ha; simp at ha
  · rw [hs] at ha
    cases hc : env.challengeOutcome with
    | error msg =>
      rw [hc] at ha
      simp only [List.mem_append, List.mem_cons, List.not_mem_nil, or_false] at ha
      rcases ha with (rfl | rfl | rfl) | rfl | rfl <;> rfl
    | ok u =>
      rw [hc] at ha
      rcases hp : pollPaymentStatus env.pollEnv apiBaseUrl apiToken pr.payment.id 20 with
        ⟨pollTrace, pollRes⟩
      rw [hp] at ha
      have hpm : ∀ b ∈ pollTrace, isBackendWriteCall b = false := by
        intro b hb
        have hb2 : b ∈ (pollFrom env.pollEnv apiBaseUrl pr.payment.id apiToken 0 20).1 := by
          have : (pollFrom env.pollEnv apiBaseUrl pr.payment.id apiToken 0 20).1 = pollTrace := by
            rw [show pollFrom env.pollEnv apiBaseUrl pr.payment.id apiToken 0 20 =
              (pollTrace, pollRes) from hp]
          rw [this]; exact hb
        rcases mem_pollFrom_p5 env.pollEnv apiBaseUrl pr.payment.id apiToken 20 0 b hb2 with
          rfl | rfl <;> rfl
      cases pollRes with
      | error msg =>
        simp only [List.append_assoc, List.mem_append, List.mem_cons, List.not_mem_nil,
          or_false] at ha
        rcases ha with (rfl | rfl | rfl) | rfl | hb | rfl | rfl
        · rfl
        · rfl
        · rfl
        · rfl
        · exact hpm a hb
        · rfl
        · rfl
      | ok finalResult =>
        by_cases hsucc : finalResult.payment.status = "succeeded"
        · simp only [hsucc, if_true, List.append_assoc, List.mem_append, List.mem_cons,
            List.not_mem_nil, or_false] at ha
          rcases ha with (rfl | rfl | rfl) | rfl | hb | rfl | rfl
          · rfl
          · rfl
          · rfl
          · rfl
          · exact hpm a hb
          · rfl
          · rfl
        · simp only [hsucc, if_false, List.append_assoc, List.mem_append, List.mem_cons,
            List.not_mem_nil, or_false] at ha
          rcases ha with (rfl | rfl | rfl) | rfl | hb | rfl | rfl | rfl
          · rfl
          · rfl
          · rfl
          · rfl
          · exact hpm a hb
          · rfl
          · rfl
          · rfl

theorem handle3DSChallenge_no_write (env : PaymentFlow.ChallengeEnv)
    (apiBaseUrl apiToken : String) (pr : PaymentResponse) :
    ((handle3DSChallenge env apiBaseUrl apiToken pr).1.all
      fun a => !(isBackendWriteCall a)) = true := by
  rw [List.all_eq_true]
  intro x hx
  simp [handle3DSChallenge_no_write_mem env apiBaseUrl apiToken pr x hx]

theorem retryChallenge_no_write (env : PaymentFlow.ChallengeEnv) (apiBaseUrl apiToken : String)
    (lastChallengeData : Option PaymentResponse) :
    ((retryChallenge env apiBaseUrl apiToken lastChallengeData).all
      fun a => !(isBackendWriteCall a)) = true := by
  cases lastChallengeData with
  | none => rfl
  | some d =>
    rw [List.all_eq_true]
    intro x hx
    simp only [retryChallenge, List.cons_append, List.nil_append, List.mem_cons] at hx
    rcases hx with rfl | rfl | hx
    · rfl
    · rfl
    · simp [handle3DSChallenge_no_write_mem env apiBaseUrl apiToken d x hx]

end AppP5

namespace PaymentFlow

theorem processPaymentOp_mem_process_request (env : ProcessEnv)
    (params : Backend.ProcessPaymentParams) (apiToken apiBaseUrl : String) (st : HookState) :
    Effect.request "POST" (apiBaseUrl ++ "/api/public/v1/payments/process")
        ("Bearer " ++ apiToken) ∈
      (processPaymentOp env params apiToken apiBaseUrl st).1 := by
  rcases env with ⟨proc, chal⟩
  cases proc with
  | httpError f => simp [processPaymentOp, Backend.processPayment]
  | ok result =>
    by_cases hcond : threedsCondition result.payment = true
    · unfold processPaymentOp
      simp only [Backend.processPayment, hcond, if_true]
      rcases hin : handle3DSChallengeOp chal apiToken apiBaseUrl result.payment
        { isLoading := true, error := Option.none, threeDsStatus := ThreeDsStatus.required } with
        ⟨innerTrace, innerSt, innerRes⟩
      cases innerRes with
      | error msg => simp
      | ok o =>
        cases o with
        | none => simp
        | some finalResult => simp
    · unfold processPaymentOp
      simp only [Bool.not_eq_true] at hcond
      simp [Backend.processPayment, hcond]

end PaymentFlow

/-- Counterexample to C4 as stated: in the basic tokenization demo
(`part_005`), the manual retry action run on concretely saved challenge
data performs no create-session call and no payment-process call — its
trace has no POST request and no SDK session creation — while it does
re-run the previously saved challenge (the SDK `startChallenge` call with
the saved session fields is in the trace). -/
theorem C4_counterexample_retryChallenge_reruns_saved_challenge :
    ((AppP5.retryChallenge sampleChallengeEnv "https://app.tagadapay.com" "tok"
        (some { payment := threedsPayment })).all fun a => !(isBackendWriteCall a)) = true ∧
    Effect.sdkStartChallenge "3ds_1" "https://acs.example/c" "trans_1" "2.2.0" ∈
      AppP5.retryChallenge sampleChallengeEnv "https://app.tagadapay.com" "tok"
        (some { payment := threedsPayment }) := by
  constructor <;> decide

/-- C4 amended: the repository has two retry actions.  The core-js demo's
`retry3DSFromBeginning` does retry from the beginning: it performs a new
SDK session creation, a new POST to the create-session endpoint and a new
POST to the payment-process endpoint (second conjunct, given that session
creation succeeds).  The basic tokenization demo's `retryChallenge`
(`part_005`) instead only re-runs the previously saved challenge: its trace
never contains a create-session or payment-process call (first
conjunct). -/
theorem C4_amended_retry_semantics :
    (∀ (env : PaymentFlow.ChallengeEnv) (apiBaseUrl apiToken : String)
      (lastChallengeData : Option PaymentResponse),
      ((AppP5.retryChallenge env apiBaseUrl apiToken lastChallengeData).all
        fun a => !(isBackendWriteCall a)) = true) ∧
    (∀ (env : AppCoreJs.RetryEnv) (piResult : PaymentInstrumentResult) (amount : Int)
      (storeId apiToken apiBaseUrl : String) (st : PaymentFlow.HookState)
      (localSession : PaymentFlow.LocalSession) (sess : ThreedsSessionResult),
      env.create.sdkSession = Except.ok localSession →
      env.create.persistOutcome = Backend.HttpOutcome.ok sess →
      Effect.sdkCreateSession piResult.paymentInstrument.id ∈
        AppCoreJs.retry3DSFromBeginning env piResult amount storeId apiToken apiBaseUrl st ∧
      Effect.request "POST" (apiBaseUrl ++ "/api/public/v1/threeds/create-session")
          ("Bearer " ++ apiToken) ∈
        AppCoreJs.retry3DSFromBeginning env piResult amount storeId apiToken apiBaseUrl st ∧
      Effect.request "POST" (apiBaseUrl ++ "/api/public/v1/payments/process")
          ("Bearer " ++ apiToken) ∈
        AppCoreJs.retry3DSFromBeginning env piResult amount storeId apiToken apiBaseUrl st) := by
  constructor
  · intro env apiBaseUrl apiToken lastChallengeData
    exact AppP5.retryChallenge_no_write env apiBaseUrl apiToken lastChallengeData
  · intro env piResult amount storeId apiToken apiBaseUrl st localSession sess hsdk hpersist
    unfold AppCoreJs.retry3DSFromBeginning
    rcases env with ⟨create, procEnv⟩
    simp only at hsdk hpersist
    unfold PaymentFlow.create3DSSessionOp
    rw [hsdk]
    simp only [Backend.persistThreedsSession, hpersist]
    have hproc := PaymentFlow.processPaymentOp_mem_process_request procEnv
      { amount := amount, currency := "USD", storeId := storeId.trim,
        paymentInstrumentId := piResult.paymentInstrument.id,
        threedsSessionId := some sess.id } apiToken apiBaseUrl
      { isLoading := false, error := Option.none, threeDsStatus := st.threeDsStatus }
    rcases hp : PaymentFlow.processPaymentOp procEnv
      { amount := amount, currency := "USD", storeId := storeId.trim,
        paymentInstrumentId := piResult.paymentInstrument.id,
        threedsSessionId := some sess.id } apiToken apiBaseUrl
      { isLoading := false, error := Option.none, threeDsStatus := st.threeDsStatus } with
      ⟨procTrace, procSt, procRes⟩
    rw [hp] at hproc
    have hproc2 : Effect.request "POST" (apiBaseUrl ++ "/api/public/v1/payments/process")
        ("Bearer " ++ apiToken) ∈ procTrace := hproc
    cases procRes with
    | error msg => simp [hproc2]
    | ok result => simp [hproc2]

/-- A concrete persisted 3DS session row. -/
def sampleThreedsSessionResult : ThreedsSessionResult :=
  { id := "tds_row_1", externalSessionId := "3ds_1", provider := "basistheory",
    status := "created", paymentInstrumentId := "pi_1", createdAt := "" }

/-- A concrete customer record. -/
def sampleCustomer : Customer :=
  { id := "cus_1", email := "demo@example.com", firstName := some "Demo",
    lastName := some "User", createdAt := "" }

/-- A concrete payment-instrument creation result. -/
def samplePaymentInstrumentResult : PaymentInstrumentResult :=
  { paymentInstrument := samplePaymentInstrument, customer := sampleCustomer }

/-- A concrete create-session environment in which both steps succeed. -/
def sampleCreate3DSEnv : PaymentFlow.Create3DSEnv :=
  { sdkSession := Except.ok sampleLocalSession,
    persistOutcome := Backend.HttpOutcome.ok sampleThreedsSessionResult }

/-- A concrete retry environment in which session creation succeeds. -/
def sampleRetryEnv : AppCoreJs.RetryEnv :=
  { create := sampleCreate3DSEnv, process := sampleProcessEnv }

/-- Witness for the amended C4: concretely, `part_005`'s retry performs no
write call, while the core-js retry issues a new payment-process POST. -/
theorem C4_amended_retry_semantics_witness :
    ((AppP5.retryChallenge sampleChallengeEnv "https://app.tagadapay.com" "tok" Option.none).all
      fun a => !(isBackendWriteCall a)) = true ∧
    Effect.request "POST" ("https://app.tagadapay.com" ++ "/api/public/v1/payments/process")
        ("Bearer " ++ "tok") ∈
      AppCoreJs.retry3DSFromBeginning sampleRetryEnv samplePaymentInstrumentResult 2999
        "store_eaa20d619f6b" "tok" "https://app.tagadapay.com" idleState := by
  have h := C4_amended_retry_semantics
  refine ⟨h.1 sampleChallengeEnv "https://app.tagadapay.com" "tok" Option.none, ?_⟩
  exact (h.2 sampleRetryEnv samplePaymentInstrumentResult 2999 "store_eaa20d619f6b" "tok"
    "https://app.tagadapay.com" idleState sampleLocalSession sampleThreedsSessionResult
    (by rfl) (by rfl)).2.2

namespace HistoryStore

/-! ## `localStorage.ts` (`src/unnamed/part_006`)

The history utilities, as pure list transformations: browser storage is the
list argument and the returned list (the JSON round-trip through
`localStorage` is not modelled).  `Date.now()` is an argument. -/

/-- A stored token history entry (`TokenHistoryItem`). -/
structure TokenHistoryItem where
  id : String
  tagadaToken : String
  timestamp : Nat
  cardLast4 : String
  cardBrand : String
  label : Option String
deriving DecidableEq, Repr

/-- A stored store-id history entry (`StoreHistoryItem`). -/
structure StoreHistoryItem where
  storeId : String
  timestamp : Nat
  label : Option String
deriving DecidableEq, Repr

/-- The `MAX_HISTORY_ITEMS` constant. -/
def MAX_HISTORY_ITEMS : Nat := 10

/-- The `saveTokenToHistory` update: the new item (built by the source from
the partial item, `token_${Date.now()}` and `Date.now()`) is prepended and
the list truncated to `MAX_HISTORY_ITEMS` (`slice(0, MAX_HISTORY_ITEMS)`). -/
def saveTokenToHistory (newItem : TokenHistoryItem) (history : List TokenHistoryItem) :
    List TokenHistoryItem :=
  (newItem :: history).take MAX_HISTORY_ITEMS

/-- The `saveStoreToHistory` update: entries with the same `storeId` are
filtered out, the new item prepended, and the list truncated. -/
def saveStoreToHistory (storeId : String) (label : Option String) (now : Nat)
    (history : List StoreHistoryItem) : List StoreHistoryItem :=
  let newItem : StoreHistoryItem := { storeId := storeId, timestamp := now, label := label }
  let filteredHistory := history.filter fun item => item.storeId != storeId
  (newItem :: filteredHistory).take MAX_HISTORY_ITEMS

end HistoryStore

/-- C9: after every save, the token history and the store history hold at
most 10 items and begin with the newly saved item; and `saveStoreToHistory`
keeps store ids pairwise distinct (it replaces any previous entry of the
same store) whenever they were distinct before. -/
theorem C9_history_invariants (newItem : HistoryStore.TokenHistoryItem)
    (history : List HistoryStore.TokenHistoryItem) (storeId : String) (label : Option String)
    (now : Nat) (stores : List HistoryStore.StoreHistoryItem) :
    (HistoryStore.saveTokenToHistory newItem history).length ≤ 10 ∧
    (HistoryStore.saveTokenToHistory newItem history).head? = some newItem ∧
    (HistoryStore.saveStoreToHistory storeId label now stores).length ≤ 10 ∧
    (HistoryStore.saveStoreToHistory storeId label now stores).head? =
      some { storeId := storeId, timestamp := now, label := label } ∧
    (stores.Pairwise (fun a b => a.storeId ≠ b.storeId) →
      (HistoryStore.saveStoreToHistory storeId label now stores).Pairwise
        (fun a b => a.storeId ≠ b.storeId)) := by
  refine ⟨List.length_take_le 10 _, rfl, List.length_take_le 10 _, rfl, fun hp => ?_⟩
  have hsub : (HistoryStore.saveStoreToHistory storeId label now stores).Sublist
      ({ storeId := storeId, timestamp := now, label := label } ::
        stores.filter fun item => item.storeId != storeId) :=
    List.take_sublist 10 _
  refine List.Pairwise.sublist hsub (List.pairwise_cons.mpr ⟨?_, hp.filter _⟩)
  intro b hb
  have := List.of_mem_filter hb
  simp only [bne_iff_ne, ne_eq] at this
  exact fun hcontra => this hcontra.symm

/-- Witness for C9: saving a duplicate store id into a two-element history
keeps the ids pairwise distinct. -/
theorem C9_history_invariants_witness :
    (HistoryStore.saveStoreToHistory "store_a" Option.none 5
      [{ storeId := "store_a", timestamp := 1, label := Option.none },
       { storeId := "store_b", timestamp := 2, label := Option.none }]).Pairwise
      (fun a b => a.storeId ≠ b.storeId) ∧
    (HistoryStore.saveStoreToHistory "store_a" Option.none 5
      [{ storeId := "store_a", timestamp := 1, label := Option.none },
       { storeId := "store_b", timestamp := 2, label := Option.none }]).head? =
      some { storeId := "store_a", timestamp := 5, label := Option.none } := by
  have h := C9_history_invariants
    { id := "token_1", tagadaToken := "tt", timestamp := 1, cardLast4 := "4242",
      cardBrand := "visa", label := Option.none } [] "store_a" Option.none 5
    [{ storeId := "store_a", timestamp := 1, label := Option.none },
     { storeId := "store_b", timestamp := 2, label := Option.none }]
  exact ⟨h.2.2.2.2 (by simp), h.2.2.2.1⟩

namespace MockShipping

/-! ## `mockShippingService` (`GooglePayExpressCheckout.tsx`)

Money amounts are embedded as exact rationals; the `toFixed(2)` formatting
of the option price for the Google Pay sheet is presentational and not
modelled.  The simulated delays do not affect the computed values. -/

/-- The address fields the mock service reads. -/
structure GooglePayAddress where
  administrativeArea : Option String
  countryCode : Option String
deriving DecidableEq, Repr

/-- A shipping option of the sheet. -/
structure ShippingOption where
  id : String
  label : String
  description : String
  price : ℚ
deriving DecidableEq, Repr

/-- `calculateShipping`: base 5.99 for `US`, 12.99 otherwise; three options
at base, base + 5.00 and base + 15.00. -/
def calculateShipping (address : GooglePayAddress) : List ShippingOption :=
  let baseShipping : ℚ := if address.countryCode = some "US" then 599 / 100 else 1299 / 100
  [{ id := "standard", label := "Standard Shipping", description := "5-7 business days",
     price := baseShipping },
   { id := "express", label := "Express Shipping", description := "2-3 business days",
     price := baseShipping + 5 },
   { id := "overnight", label := "Overnight Shipping", description := "Next business day",
     price := baseShipping + 15 }]

/-- The `taxRates` record: CA 0.0875, NY 0.08, TX 0.0625, FL 0.06. -/
def taxRates (area : String) : Option ℚ :=
  if area = "CA" then some (875 / 10000)
  else if area = "NY" then some (8 / 100)
  else if area = "TX" then some (625 / 10000)
  else if area = "FL" then some (6 / 100)
  else Option.none

/-- `calculateTax`: `taxRates[address.administrativeArea || ''] || 0.05`
applied to the subtotal. -/
def calculateTax (address : GooglePayAddress) (subtotal : ℚ) : ℚ :=
  let area := match address.administrativeArea with
    | some a => a
    | Option.none => ""
  let taxRate := match taxRates area with
    | some r => r
    | Option.none => 5 / 100
  subtotal * taxRate

end MockShipping

/-- C10: the mock shipping and tax service is deterministic arithmetic over
the address.  `calculateShipping` returns exactly three options priced
base, base + 5.00 and base + 15.00 with base 5.99 for country `US` and
12.99 otherwise; `calculateTax` multiplies the subtotal by 0.0875 for CA,
0.08 for NY, 0.0625 for TX, 0.06 for FL and 0.05 for every other
administrative area (including none). -/
theorem C10_mock_shipping_tax_arithmetic (address : MockShipping.GooglePayAddress)
    (subtotal : ℚ) :
    ((MockShipping.calculateShipping address).length = 3 ∧
      (MockShipping.calculateShipping address).map MockShipping.ShippingOption.price =
        [if address.countryCode = some "US" then (599 : ℚ) / 100 else 1299 / 100,
         (if address.countryCode = some "US" then (599 : ℚ) / 100 else 1299 / 100) + 5,
         (if address.countryCode = some "US" then (599 : ℚ) / 100 else 1299 / 100) + 15]) ∧
    (address.administrativeArea = some "CA" →
      MockShipping.calculateTax address subtotal = subtotal * (875 / 10000)) ∧
    (address.administrativeArea = some "NY" →
      MockShipping.calculateTax address subtotal = subtotal * (8 / 100)) ∧
    (address.administrativeArea = some "TX" →
      MockShipping.calculateTax address subtotal = subtotal * (625 / 10000)) ∧
    (address.administrativeArea = some "FL" →
      MockShipping.calculateTax address subtotal = subtotal * (6 / 100)) ∧
    (∀ area, address.administrativeArea = some area → area ≠ "CA" → area ≠ "NY" →
      area ≠ "TX" → area ≠ "FL" →
      MockShipping.calculateTax address subtotal = subtotal * (5 / 100)) ∧
    (address.administrativeArea = Option.none →
      MockShipping.calculateTax address subtotal = subtotal * (5 / 100)) := by
  refine ⟨⟨rfl, rfl⟩, ?_, ?_, ?_, ?_, ?_, ?_⟩
  · intro h; simp [MockShipping.calculateTax, MockShipping.taxRates, h]
  · intro h; simp [MockShipping.calculateTax, MockShipping.taxRates, h]
  · intro h; simp [MockShipping.calculateTax, MockShipping.taxRates, h]
  · intro h; simp [MockShipping.calculateTax, MockShipping.taxRates, h]
  · intro area h h1 h2 h3 h4
    simp [MockShipping.calculateTax, MockShipping.taxRates, h, h1, h2, h3, h4]
  · intro h; simp [MockShipping.calculateTax, MockShipping.taxRates, h]

/-- Witness for C10: a Californian address pays 8.75 percent on 100, and a
non-US address ships at 12.99 base. -/
theorem C10_mock_shipping_tax_arithmetic_witness :
    MockShipping.calculateTax
        { administrativeArea := some "CA", countryCode := some "US" } 100 =
      100 * (875 / 10000) ∧
    (MockShipping.calculateShipping
        { administrativeArea := Option.none, countryCode := some "DE" }).map
      MockShipping.ShippingOption.price = [1299 / 100, 1299 / 100 + 5, 1299 / 100 + 15] := by
  have h1 := C10_mock_shipping_tax_arithmetic
    { administrativeArea := some "CA", countryCode := some "US" } 100
  have h2 := C10_mock_shipping_tax_arithmetic
    { administrativeArea := Option.none, countryCode := some "DE" } 100
  refine ⟨h1.2.1 rfl, ?_⟩
  have := h2.1.2
  simpa using this

namespace TokenCodec

/-! ## The TagadaToken envelope

The apps decode a TagadaToken with `JSON.parse(atob(tagadaToken))`
(`handleTokenized` in `part_005` and the core-js App, `handleSelectToken`
in `HistorySidebar.tsx`).  The encoding side — `btoa` of the JSON envelope
— lives in `CardForm.tsx` / the vendor SDK, which is not among the
sources, and is modelled from the spec below.  Strings are embedded as
`List Char`; the four characters that JSON syntax gives a role are named
to keep the grammar explicit. -/

/-- The non-sensitive metadata of a TagadaToken. -/
structure NonSensitiveMetadata where
  last4 : List Char
  brand : List Char
  bin : List Char
deriving DecidableEq, Repr

/-- A decoded TagadaToken: the provider token plus non-sensitive metadata. -/
structure TagadaToken where
  token : List Char
  nonSensitiveMetadata : NonSensitiveMetadata
deriving DecidableEq, Repr

/-- The double-quote character. -/
def quoteChar : Char := Char.ofNat 34

/-- The backslash character. -/
def backslashChar : Char := Char.ofNat 92

/-- The opening-brace character. -/
def openBrace : Char := Char.ofNat 123

/-- The closing-brace character. -/
def closeBrace : Char := Char.ofNat 125

/-- A JSON string literal without escape sequences: the envelope fields
handled here contain neither quotes nor backslashes. -/
def jsonString (s : List Char) : List Char := quoteChar :: (s ++ [quoteChar])

/-- The envelope text up to the value of `token`. -/
def headLit : List Char := [openBrace] ++ jsonString "token".toList ++ [':']

/-- The envelope text between the `token` value and the `last4` value. -/
def midLit1 : List Char :=
  [','] ++ jsonString "nonSensitiveMetadata".toList ++ [':'] ++ [openBrace] ++
    jsonString "last4".toList ++ [':']

/-- The envelope text between the `last4` value and the `brand` value. -/
def midLit2 : List Char := [','] ++ jsonString "brand".toList ++ [':']

/-- The envelope text between the `brand` value and the `bin` value. -/
def midLit3 : List Char := [','] ++ jsonString "bin".toList ++ [':']

/-- The closing braces of the envelope. -/
def tailLit : List Char := [closeBrace, closeBrace]

/-- The JSON text of the envelope
(`JSON.stringify` of the token and its metadata). -/
def printEnvelope (t : TagadaToken) : List Char :=
  headLit ++ (jsonString t.token ++ (midLit1 ++ (jsonString t.nonSensitiveMetadata.last4 ++
    (midLit2 ++ (jsonString t.nonSensitiveMetadata.brand ++ (midLit3 ++
    (jsonString t.nonSensitiveMetadata.bin ++ tailLit)))))))

/-- Consume an expected literal prefix, returning the remaining input. -/
def parseExact : List Char → List Char → Option (List Char)
  | [], input => some input
  | _ :: _, [] => Option.none
  | c :: cs, r :: rs => if c = r then parseExact cs rs else Option.none

/-- Read an unescaped JSON string body up to its closing quote. -/
def parseStringBody : List Char → Option (List Char × List Char)
  | [] => Option.none
  | c :: cs =>
    if c = quoteChar then some ([], cs)
    else if c = backslashChar then Option.none
    else
      match parseStringBody cs with
      | some (s, rest) => some (c :: s, rest)
      | Option.none => Option.none

/-- Read a JSON string literal (opening quote, body, closing quote). -/
def parseJsonString : List Char → Option (List Char × List Char)
  | [] => Option.none
  | c :: cs => if c = quoteChar then parseStringBody cs else Option.none

/-- The `JSON.parse` of the envelope shape: literal punctuation and keys in
order, four string values, nothing left over. -/
def parseEnvelope (input : List Char) : Option TagadaToken := do
  let r1 ← parseExact headLit input
  let (tok, r2) ← parseJsonString r1
  let r3 ← parseExact midLit1 r2
  let (l4, r4) ← parseJsonString r3
  let r5 ← parseExact midLit2 r4
  let (br, r6) ← parseJsonString r5
  let r7 ← parseExact midLit3 r6
  let (bn, r8) ← parseJsonString r7
  let r9 ← parseExact tailLit r8
  if r9 = [] then
    some { token := tok, nonSensitiveMetadata := { last4 := l4, brand := br, bin := bn } }
  else
    Option.none

theorem parseExact_append (lit : List Char) : ∀ rest, parseExact lit (lit ++ rest) = some rest := by
  induction lit with
  | nil => intro rest; rfl
  | cons c cs ih => intro rest; simp [parseExact, ih rest]

theorem parseStringBody_append (s : List Char) (hq : quoteChar ∉ s) (hb : backslashChar ∉ s) :
    ∀ rest, parseStringBody (s ++ quoteChar :: rest) = some (s, rest) := by
  induction s with
  | nil => intro rest; simp [parseStringBody]
  | cons c cs ih =>
    intro rest
    have hcq : ¬(c = quoteChar) := fun h => hq (by simp [h])
    have hcb : ¬(c = backslashChar) := fun h => hb (by simp [h])
    have ihq : quoteChar ∉ cs := fun h => hq (List.mem_cons_of_mem c h)
    have ihb : backslashChar ∉ cs := fun h => hb (List.mem_cons_of_mem c h)
    simp [parseStringBody, hcq, hcb, ih ihq ihb rest]

theorem parseJsonString_append (s : List Char) (hq : quoteChar ∉ s) (hb : backslashChar ∉ s) :
    ∀ rest, parseJsonString (jsonString s ++ rest) = some (s, rest) := by
  intro rest
  have hshape : jsonString s ++ rest = quoteChar :: (s ++ quoteChar :: rest) := by
    simp [jsonString]
  rw [hshape]
  simp [parseJsonString, parseStringBody_append s hq hb rest]

theorem parseExact_self (lit : List Char) : parseExact lit lit = some [] := by
  have := parseExact_append lit []
  simpa using this

theorem parseEnvelope_printEnvelope (t : TagadaToken)
    (hq1 : quoteChar ∉ t.token) (hb1 : backslashChar ∉ t.token)
    (hq2 : quoteChar ∉ t.nonSensitiveMetadata.last4)
    (hb2 : backslashChar ∉ t.nonSensitiveMetadata.last4)
    (hq3 : quoteChar ∉ t.nonSensitiveMetadata.brand)
    (hb3 : backslashChar ∉ t.nonSensitiveMetadata.brand)
    (hq4 : quoteChar ∉ t.nonSensitiveMetadata.bin)
    (hb4 : backslashChar ∉ t.nonSensitiveMetadata.bin) :
    parseEnvelope (printEnvelope t) = some t := by
  simp only [parseEnvelope, printEnvelope, parseExact_append, parseExact_self,
    parseJsonString_append t.token hq1 hb1,
    parseJsonString_append t.nonSensitiveMetadata.last4 hq2 hb2,
    parseJsonString_append t.nonSensitiveMetadata.brand hq3 hb3,
    parseJsonString_append t.nonSensitiveMetadata.bin hq4 hb4,
    Option.bind_eq_bind, Option.some_bind, if_pos rfl]
  rfl

end TokenCodec

namespace TokenCodec

/-! ### Base64 (`btoa` / `atob`)

The browser primitives the apps call.  `btoa` encodes the code points of a
binary string (each below 256) in groups of three bytes to four alphabet
characters with `=` padding; `atob` inverts it. -/

/-- The base64 alphabet. -/
def b64Alphabet : List Char :=
  "ABCDEFGHIJKLMNOPQRSTUVWXYZabcdefghijklmnopqrstuvwxyz0123456789+/".toList

/-- Character of a six-bit value. -/
def sextetChar (n : Nat) : Char := b64Alphabet.getD n 'A'

/-- Six-bit value of an alphabet character. -/
def charSextet (c : Char) : Option Nat := b64Alphabet.indexOf? c

/-- Base64 encoding of a byte list, three bytes to four characters, with
`=` padding for a trailing group of one or two bytes. -/
def encodeBytes : List Nat → List Char
  | [] => []
  | [a] => [sextetChar (a / 4), sextetChar (a % 4 * 16), '=', '=']
  | [a, b] => [sextetChar (a / 4), sextetChar (a % 4 * 16 + b / 16),
      sextetChar (b % 16 * 4), '=']
  | a :: b :: c :: rest =>
    sextetChar (a / 4) :: sextetChar (a % 4 * 16 + b / 16) ::
      sextetChar (b % 16 * 4 + c / 64) :: sextetChar (c % 64) :: encodeBytes rest

/-- Base64 decoding: groups of four characters, honouring `=` padding in
the final group and rejecting anything else. -/
def decodeChars : List Char → Option (List Nat)
  | w :: x :: y :: z :: rest =>
    match charSextet w, charSextet x with
    | some a, some b =>
      if y = '=' then
        if z = '=' then
          if rest = [] then
            if b % 16 = 0 then some [a * 4 + b / 16] else Option.none
          else Option.none
        else Option.none
      else
        match charSextet y with
        | some c =>
          if z = '=' then
            if rest = [] then
              if c % 4 = 0 then some [a * 4 + b / 16, b % 16 * 16 + c / 4] else Option.none
            else Option.none
          else
            match charSextet z with
            | some d =>
              match decodeChars rest with
              | some bs =>
                some ((a * 4 + b / 16) :: (b % 16 * 16 + c / 4) :: (c % 4 * 64 + d) :: bs)
              | Option.none => Option.none
            | Option.none => Option.none
        | Option.none => Option.none
    | _, _ => Option.none
  | [] => some []
  | _ => Option.none

theorem charSextet_sextetChar : ∀ n, n < 64 → charSextet (sextetChar n) = some n := by decide

theorem sextetChar_ne_pad : ∀ n, n < 64 → sextetChar n ≠ '=' := by decide

theorem decodeChars_encodeBytes :
    ∀ (fuel : Nat) (bytes : List Nat), bytes.length ≤ fuel → (∀ b ∈ bytes, b < 256) →
      decodeChars (encodeBytes bytes) = some bytes := by
  intro fuel
  induction fuel with
  | zero =>
    intro bytes hlen _
    have : bytes = [] := List.eq_nil_of_length_eq_zero (Nat.le_zero.mp hlen)
    subst this
    simp [encodeBytes, decodeChars]
  | succ n ih =>
    intro bytes hlen hbound
    match bytes with
    | [] => simp [encodeBytes, decodeChars]
    | [a] =>
      have ha : a < 256 := hbound a (by simp)
      have h1 : a / 4 < 64 := by omega
      have h2 : a % 4 * 16 < 64 := by omega
      have hmod : a % 4 * 16 % 16 = 0 := by omega
      simp [encodeBytes, decodeChars, charSextet_sextetChar _ h1,
        charSextet_sextetChar _ h2, hmod]
      omega
    | [a, b] =>
      have ha : a < 256 := hbound a (by simp)
      have hb : b < 256 := hbound b (by simp)
      have h1 : a / 4 < 64 := by omega
      have h2 : a % 4 * 16 + b / 16 < 64 := by omega
      have h3 : b % 16 * 4 < 64 := by omega
      have hpad3 := sextetChar_ne_pad _ h3
      have hmod : b % 16 * 4 % 4 = 0 := by omega
      simp [encodeBytes, decodeChars, charSextet_sextetChar _ h1,
        charSextet_sextetChar _ h2, charSextet_sextetChar _ h3, hpad3, hmod]
      omega
    | a :: b :: c :: rest =>
      have ha : a < 256 := hbound a (by simp)
      have hb : b < 256 := hbound b (by simp)
      have hc : c < 256 := hbound c (by simp)
      have h1 : a / 4 < 64 := by omega
      have h2 : a % 4 * 16 + b / 16 < 64 := by omega
      have h3 : b % 16 * 4 + c / 64 < 64 := by omega
      have h4 : c % 64 < 64 := by omega
      have hpad3 := sextetChar_ne_pad _ h3
      have hpad4 := sextetChar_ne_pad _ h4
      have hrest : decodeChars (encodeBytes rest) = some rest := by
        refine ih rest ?_ ?_
        · simp at hlen; omega
        · intro x hx; exact hbound x (by simp [hx])
      simp [encodeBytes, decodeChars, charSextet_sextetChar _ h1,
        charSextet_sextetChar _ h2, charSextet_sextetChar _ h3, charSextet_sextetChar _ h4,
        hpad3, hpad4, hrest]
      omega

/-- The browser `btoa`: base64 of the string's code points. -/
def btoa (s : List Char) : List Char := encodeBytes (s.map Char.toNat)

/-- The browser `atob`: base64 decoding back to a binary string. -/
def atob (s : List Char) : Option (List Char) :=
  (decodeChars s).map (List.map Char.ofNat)

theorem atob_btoa (s : List Char) (h : ∀ c ∈ s, c.toNat < 256) : atob (btoa s) = some s := by
  unfold atob btoa
  rw [decodeChars_encodeBytes (s.map Char.toNat).length _ (Nat.le_refl _) ?bound]
  case bound =>
    intro b hbm
    obtain ⟨c, hcm, rfl⟩ := List.mem_map.mp hbm
    exact h c hcm
  have hid : ∀ c : Char, Char.ofNat c.toNat = c := Char.ofNat_toNat
  simp [List.map_map, Function.comp_def, hid]

end TokenCodec

namespace TokenCodec

/-- Modelled from the spec: the TagadaToken creation happens in
`CardForm.tsx` / the vendor SDK, which is not among the sources.  Per the
spec — "base64-encoded envelope combining a provider token with
non-sensitive card/wallet metadata", "Created once, immutable,
base64-encoded envelope" — the encoding is `btoa` of the JSON envelope of
the provider token and the metadata. -/
def encodeTagadaToken (t : TagadaToken) : List Char := btoa (printEnvelope t)

/-- The decoding the apps actually perform:
`JSON.parse(atob(tagadaToken))`. -/
def decodeTagadaToken (s : List Char) : Option TagadaToken :=
  (atob s).bind parseEnvelope

/-- The fields `handleTokenized` passes to `saveTokenToHistory`. -/
structure SavedTokenFields where
  cardLast4 : List Char
  cardBrand : List Char
deriving DecidableEq, Repr

/-- `handleTokenized` (`part_005`): decode the TagadaToken for display and
save `last4` and `brand` of its metadata to the history (decoding failure
would throw). -/
def handleTokenized (tagadaToken : List Char) : Option (TagadaToken × SavedTokenFields) :=
  match decodeTagadaToken tagadaToken with
  | some decoded =>
    some (decoded, { cardLast4 := decoded.nonSensitiveMetadata.last4,
                     cardBrand := decoded.nonSensitiveMetadata.brand })
  | Option.none => Option.none

/-- The token object `handleSelectTokenFromHistory` reconstructs
(`mockOriginalToken`): id from the provider token, type `card`, and the
card details from the metadata. -/
structure CardTokenResponse where
  id : List Char
  type : List Char
  bin : List Char
  last4 : List Char
  brand : List Char
deriving DecidableEq, Repr

/-- `handleSelectTokenFromHistory` (`part_005`): rebuild the original token
shape from a decoded TagadaToken. -/
def handleSelectTokenFromHistory (decodedToken : TagadaToken) : CardTokenResponse :=
  { id := decodedToken.token, type := "card".toList,
    bin := decodedToken.nonSensitiveMetadata.bin,
    last4 := decodedToken.nonSensitiveMetadata.last4,
    brand := decodedToken.nonSensitiveMetadata.brand }

/-- A field that round-trips through the unescaped JSON embedding: no
quote, no backslash, and code points below 256 (so `btoa` accepts it). -/
def plainAsciiField (s : List Char) : Prop :=
  quoteChar ∉ s ∧ backslashChar ∉ s ∧ ∀ c ∈ s, c.toNat < 256

instance (s : List Char) : Decidable (plainAsciiField s) := by
  unfold plainAsciiField
  infer_instance

theorem mem_jsonString_ascii (s : List Char) (h : ∀ c ∈ s, c.toNat < 256) :
    ∀ c ∈ jsonString s, c.toNat < 256 := by
  intro c hc
  simp only [jsonString, List.mem_cons, List.mem_append, List.mem_singleton,
    List.not_mem_nil, or_false] at hc
  rcases hc with rfl | hc | rfl
  · decide
  · exact h c hc
  · decide

theorem printEnvelope_ascii (t : TagadaToken)
    (h1 : plainAsciiField t.token) (h2 : plainAsciiField t.nonSensitiveMetadata.last4)
    (h3 : plainAsciiField t.nonSensitiveMetadata.brand)
    (h4 : plainAsciiField t.nonSensitiveMetadata.bin) :
    ∀ c ∈ printEnvelope t, c.toNat < 256 := by
  intro c hc
  simp only [printEnvelope, List.mem_append] at hc
  rcases hc with hc | hc | hc | hc | hc | hc | hc | hc | hc
  · exact (by decide : ∀ c ∈ headLit, c.toNat < 256) c hc
  · exact mem_jsonString_ascii _ h1.2.2 c hc
  · exact (by decide : ∀ c ∈ midLit1, c.toNat < 256) c hc
  · exact mem_jsonString_ascii _ h2.2.2 c hc
  · exact (by decide : ∀ c ∈ midLit2, c.toNat < 256) c hc
  · exact mem_jsonString_ascii _ h3.2.2 c hc
  · exact (by decide : ∀ c ∈ midLit3, c.toNat < 256) c hc
  · exact mem_jsonString_ascii _ h4.2.2 c hc
  · exact (by decide : ∀ c ∈ tailLit, c.toNat < 256) c hc

end TokenCodec

/-- C7: a TagadaToken is a base64-encoded JSON envelope, and base64 decode
followed by JSON parse is a left inverse of the encoding: for every token
whose fields are plain (no quote, no backslash, code points below 256),
`JSON.parse(atob(btoa(JSON.stringify(envelope))))` returns exactly the
token and its metadata; `handleTokenized` recovers the decoded token and
saves exactly `last4` and `brand` to the history, and
`handleSelectTokenFromHistory` rebuilds the original-token shape from
exactly the provider token, `bin`, `last4` and `brand`. -/
theorem C7_tagadaToken_decode_left_inverse (t : TokenCodec.TagadaToken)
    (h1 : TokenCodec.plainAsciiField t.token)
    (h2 : TokenCodec.plainAsciiField t.nonSensitiveMetadata.last4)
    (h3 : TokenCodec.plainAsciiField t.nonSensitiveMetadata.brand)
    (h4 : TokenCodec.plainAsciiField t.nonSensitiveMetadata.bin) :
    TokenCodec.decodeTagadaToken (TokenCodec.encodeTagadaToken t) = some t ∧
    TokenCodec.handleTokenized (TokenCodec.encodeTagadaToken t) =
      some (t, { cardLast4 := t.nonSensitiveMetadata.last4,
                 cardBrand := t.nonSensitiveMetadata.brand }) ∧
    TokenCodec.handleSelectTokenFromHistory t =
      { id := t.token, type := "card".toList, bin := t.nonSensitiveMetadata.bin,
        last4 := t.nonSensitiveMetadata.last4, brand := t.nonSensitiveMetadata.brand } := by
  have hdec : TokenCodec.decodeTagadaToken (TokenCodec.encodeTagadaToken t) = some t := by
    unfold TokenCodec.decodeTagadaToken TokenCodec.encodeTagadaToken
    rw [TokenCodec.atob_btoa _ (TokenCodec.printEnvelope_ascii t h1 h2 h3 h4)]
    simp only [Option.some_bind]
    exact TokenCodec.parseEnvelope_printEnvelope t h1.1 h1.2.1 h2.1 h2.2.1 h3.1 h3.2.1
      h4.1 h4.2.1
  refine ⟨hdec, ?_, rfl⟩
  unfold TokenCodec.handleTokenized
  rw [hdec]

/-- A concrete TagadaToken. -/
def sampleTagadaToken : TokenCodec.TagadaToken :=
  { token := "tok_abc123".toList,
    nonSensitiveMetadata :=
      { last4 := "4242".toList, brand := "visa".toList, bin := "424242".toList } }

/-- Witness for C7: decoding the encoding of a concrete token returns the
token, and the history fields are its `last4` and `brand`. -/
theorem C7_tagadaToken_decode_left_inverse_witness :
    TokenCodec.decodeTagadaToken (TokenCodec.encodeTagadaToken sampleTagadaToken) =
      some sampleTagadaToken ∧
    TokenCodec.handleTokenized (TokenCodec.encodeTagadaToken sampleTagadaToken) =
      some (sampleTagadaToken, { cardLast4 := "4242".toList, cardBrand := "visa".toList }) := by
  have h := C7_tagadaToken_decode_left_inverse sampleTagadaToken
    (by decide) (by decide) (by decide) (by decide)
  exact ⟨h.1, h.2.1⟩
